import Mathlib

/-!
# CMS content handlers: a shallow embedding

The Go package `services` (file `services/Contents.go`) implements five HTTP
handlers over three injected store interfaces (`PostgresRepository`,
`MongoRepository`, `CacheRepository`).  The handlers are embedded here as pure
functions over an explicit store state; every call that a handler makes on one
of its stores is appended to a call log, so that statements of the form
"the handler makes no call to store X" can be stated and proved.

`utils/authMiddleware.go` is embedded as `AuthMiddleware`, and the login
handler of `services/userHandlers.go` as `Handler.LoginHandler`.
-/

set_option autoImplicit false

namespace CMS

/-! ## models (models/user.go) and library types -/

/-- Instants of `time.Time`; the zero value of `time.Time` is `0`. -/
abbrev Time := Nat

/-- Durations of `time.Duration`, in nanoseconds. -/
abbrev Duration := Nat

/-- The constant `time.Second`. -/
def Second : Duration := 1000000000

/-- Go `error` values: `none` is `nil`, `some msg` is an error with text `msg`. -/
abbrev GoError := Option String

/-- The struct `models.Content`: the embedded `gorm.Model` (ID, CreatedAt,
UpdatedAt, DeletedAt) followed by Title, Description and UserID. -/
structure Content where
  ID : Nat
  CreatedAt : Time
  UpdatedAt : Time
  DeletedAt : Option Time
  Title : String
  Description : String
  UserID : Int
  deriving DecidableEq, Repr

/-- The Go zero value of `models.Content` (what `var content models.Content` holds). -/
def Content.zero : Content :=
  { ID := 0, CreatedAt := 0, UpdatedAt := 0, DeletedAt := none,
    Title := "", Description := "", UserID := 0 }

/-- The struct `models.ContentBody`. -/
structure ContentBody where
  ContentID : Nat
  Body : String
  deriving DecidableEq, Repr

/-- The Go zero value of `models.ContentBody`. -/
def ContentBody.zero : ContentBody := { ContentID := 0, Body := "" }

/-- A Go slice of contents: `none` is the nil slice. -/
abbrev ContentSlice := Option (List Content)

/-- The filter `bson.M{"content_id": contentID}`. -/
structure Filter where
  content_id : Int
  deriving DecidableEq, Repr

/-- The update document `bson.M{"$set": bson.M{"body": ..., "title": ...}}`. -/
structure Update where
  body : String
  title : String
  deriving DecidableEq, Repr

/-- A finite `float64` value `mant * 2 ^ exp`. -/
structure Float64 where
  mant : Int
  exp : Int
  deriving DecidableEq, Repr

/-- The value of a `float64` with its fraction discarded (truncation toward
zero). -/
def Float64.trunc (x : Float64) : Int :=
  match x.exp with
  | Int.ofNat e => x.mant * 2 ^ e
  | Int.negSucc e => Int.tdiv x.mant (2 ^ (e + 1))

/-- The Go conversion `int(x)` of a `float64` on a 64-bit amd64 platform:
truncation toward zero when the result fits `int`; for every value out of
range the conversion instruction gives the minimum `int`. -/
def Float64.toInt (x : Float64) : Int :=
  if -(2 ^ 63) ≤ x.trunc ∧ x.trunc < 2 ^ 63 then x.trunc else -(2 ^ 63)

/-- The `float64` `x` holds exactly the integer `n`. -/
def Float64.Holds (x : Float64) (n : Int) : Prop :=
  match x.exp with
  | Int.ofNat e => x.mant * 2 ^ e = n
  | Int.negSucc e => x.mant = n * 2 ^ (e + 1)

/-- The value `float64(n)` for a small integer `n`. -/
def Float64.ofInt (n : Int) : Float64 := { mant := n, exp := 0 }

/-! ## strconv.Atoi -/

/-- Value of a run of ASCII decimal digits, accumulated left to right as in
the loop of `strconv.Atoi`; `none` as soon as a byte is not a digit. -/
def parseDigits : Nat → List Char → Option Nat
  | n, [] => some n
  | n, c :: cs =>
    if c.isDigit then parseDigits (n * 10 + (c.toNat - 48)) cs else none

/-- The library function `strconv.Atoi` on a 64-bit platform: an optional
sign, then at least one decimal digit and nothing else; the value must fit
`int`. -/
def Atoi (s : String) : Except String Int :=
  match s.data with
  | [] => .error "invalid syntax"
  | c :: cs =>
    let ds := if c = '-' ∨ c = '+' then cs else c :: cs
    match ds with
    | [] => .error "invalid syntax"
    | d :: ds1 =>
      match parseDigits 0 (d :: ds1) with
      | none => .error "invalid syntax"
      | some n =>
        if c = '-' then
          (if n ≤ 2 ^ 63 then .ok (-(n : Int)) else .error "value out of range")
        else
          (if n < 2 ^ 63 then .ok (n : Int) else .error "value out of range")

/-! ## fiber: request context and responses -/

/-- Values stored with `c.Locals(key, value)` (Go `interface{}`): the two
dynamic types that occur in this repository. -/
inductive Local where
  | str (s : String)
  | float64 (x : Float64)
  deriving DecidableEq, Repr

/-- The request struct of `CreateContent` and of `UpdateContent`
(`CreateContentRequest`, `UpdateContentRequest`: the same two fields). -/
structure ContentRequest where
  Title : String
  Description : String
  deriving DecidableEq, Repr

/-- The part of `*fiber.Ctx` the handlers read: route parameters, request
headers, the per-request locals and the outcome of `c.BodyParser(&req)` on the
request body. -/
structure Ctx where
  params : List (String × String)
  headers : List (String × String)
  locals : List (String × Local)
  body : Except String ContentRequest

/-- A fresh request context holds no locals. -/
def Ctx.request (params headers : List (String × String))
    (body : Except String ContentRequest) : Ctx :=
  { params := params, headers := headers, locals := [], body := body }

/-- `c.Params(key)`: the route parameter, or the empty string. -/
def Ctx.Params (c : Ctx) (key : String) : String :=
  (c.params.lookup key).getD ""

/-- `c.Get(key)`: the first request header of that name, or the empty string;
header names are matched without regard to the case of ASCII letters. -/
def Ctx.Get (c : Ctx) (key : String) : String :=
  match c.headers.find? (fun header =>
      header.1.data.map Char.toLower = key.data.map Char.toLower) with
  | some header => header.2
  | none => ""

/-- `c.Locals(key)`: the stored value, `none` for nil. -/
def Ctx.Locals (c : Ctx) (key : String) : Option Local :=
  c.locals.lookup key

/-- `c.Locals(key, value)`: store a value. -/
def Ctx.setLocal (c : Ctx) (key : String) (v : Local) : Ctx :=
  { c with locals := (key, v) :: c.locals }

/-- `c.BodyParser(&req)`: the parsed request, or an error. -/
def Ctx.BodyParser (c : Ctx) : Except String ContentRequest := c.body

/-- The value handed to `c.JSON(...)`. -/
inductive Body where
  /-- The map `fiber.Map{"error": msg}`. -/
  | error (msg : String)
  /-- The map `fiber.Map{"message": msg}`. -/
  | message (msg : String)
  /-- One `models.Content`. -/
  | content (c : Content)
  /-- A slice `[]models.Content`. -/
  | contents (cs : ContentSlice)
  /-- A Go `string`. -/
  | text (s : String)
  /-- The map built by `GetContent` (keys id, title, author, description,
  created_at, updated_at). -/
  | view (id : Nat) (title : String) (author : Int) (description : String)
      (created_at updated_at : Time)
  deriving DecidableEq, Repr

/-- An HTTP response: `c.Status(status).JSON(body)`. -/
structure Response where
  status : Nat
  body : Body
  deriving DecidableEq, Repr

def StatusOK : Nat := 200
def StatusCreated : Nat := 201
def StatusBadRequest : Nat := 400
def StatusUnauthorized : Nat := 401
def StatusNotFound : Nat := 404
def StatusInternalServerError : Nat := 500

/-! ## Store interfaces (services/Contents.go, lines 18-36)

A method that takes a pointer returns, next to its `error`, the value the
pointee holds after the call. -/

structure PostgresRepository (σ : Type) where
  CreateContent : Content → σ → GoError × Content × σ
  FindContents : ContentSlice → σ → GoError × ContentSlice × σ
  GetContent : String → Content → σ → GoError × Content × σ
  SaveContent : Content → σ → GoError × Content × σ
  DeleteContent : Content → σ → GoError × Content × σ

structure MongoRepository (σ : Type) where
  InsertContentBody : ContentBody → σ → GoError × ContentBody × σ
  GetContentBody : Filter → ContentBody → σ → GoError × ContentBody × σ
  UpdateContentBody : Filter → Update → σ → GoError × σ
  DeleteContentBody : Filter → σ → GoError × σ

structure CacheRepository (σ : Type) where
  Get : String → σ → (String × GoError) × σ
  Set : String → String → Duration → σ → GoError × σ

/-- The struct `ContentHandler`. -/
structure ContentHandler (σ : Type) where
  PG : PostgresRepository σ
  Mongo : MongoRepository σ
  Cache : CacheRepository σ

def NewContentHandler {σ : Type} (pg : PostgresRepository σ) (mongo : MongoRepository σ)
    (cache : CacheRepository σ) : ContentHandler σ :=
  { PG := pg, Mongo := mongo, Cache := cache }

/-- One call on a store interface, with the arguments the handler passed. -/
inductive Call where
  | pgCreateContent (content : Content)
  | pgFindContents
  | pgGetContent (id : String)
  | pgSaveContent (content : Content)
  | pgDeleteContent (content : Content)
  | mongoInsertContentBody (contentBody : ContentBody)
  | mongoGetContentBody (filter : Filter)
  | mongoUpdateContentBody (filter : Filter) (update : Update)
  | mongoDeleteContentBody (filter : Filter)
  | cacheGet (key : String)
  | cacheSet (key value : String) (expiration : Duration)
  deriving DecidableEq, Repr

/-- Calls on the relational store. -/
def Call.isPG : Call → Bool
  | .pgCreateContent _ | .pgFindContents | .pgGetContent _
  | .pgSaveContent _ | .pgDeleteContent _ => true
  | _ => false

/-- Calls on the document store. -/
def Call.isMongo : Call → Bool
  | .mongoInsertContentBody _ | .mongoGetContentBody _
  | .mongoUpdateContentBody _ _ | .mongoDeleteContentBody _ => true
  | _ => false

/-- Calls on the cache store. -/
def Call.isCache : Call → Bool
  | .cacheGet _ | .cacheSet _ _ _ => true
  | _ => false

/-- Calls that write to the relational store. -/
def Call.isPGWrite : Call → Bool
  | .pgCreateContent _ | .pgSaveContent _ | .pgDeleteContent _ => true
  | _ => false

/-- The store state together with the log of the store calls made so far. -/
structure Run (σ : Type) where
  state : σ
  calls : List Call

/-- A run that starts in state `s` with an empty call log. -/
def Run.start {σ : Type} (s : σ) : Run σ := { state := s, calls := [] }

/-- The package `fmt`: how the verb `%v` prints one `models.Content` is a
parameter of the embedding. -/
structure Fmt where
  content : Content → String

/-- The library call `fmt.Sprintf("%v", contents)` on a `[]models.Content`:
the elements between brackets, separated by one blank; a nil slice prints as
an empty one. -/
def Fmt.Sprintf (fmt : Fmt) (contents : ContentSlice) : String :=
  "[" ++ " ".intercalate ((contents.getD []).map fmt.content) ++ "]"

/-- The package `encoding/json` (behind `c.JSON`): the escaping of the
characters of a string and the rendering of a `time.Time` are parameters of
the embedding. -/
structure JSON where
  escape : String → String
  time : Time → String

/-- A Go `string` as JSON: its escaped characters between double quotes. -/
def JSON.string (json : JSON) (s : String) : String :=
  "\"" ++ json.escape s ++ "\""

/-- A `gorm.DeletedAt` as JSON: `null` unless valid. -/
def JSON.deletedAt (json : JSON) : Option Time → String
  | none => "null"
  | some t => json.time t

/-- A `models.Content` as JSON: the fields of the embedded `gorm.Model`, then
the tagged fields. -/
def JSON.content (json : JSON) (c : Content) : String :=
  "\x7b\"ID\":" ++ toString c.ID ++
  ",\"CreatedAt\":" ++ json.time c.CreatedAt ++
  ",\"UpdatedAt\":" ++ json.time c.UpdatedAt ++
  ",\"DeletedAt\":" ++ json.deletedAt c.DeletedAt ++
  ",\"title\":" ++ json.string c.Title ++
  ",\"description\":" ++ json.string c.Description ++
  ",\"user_id\":" ++ toString c.UserID ++ "\x7d"

/-- The bytes `c.JSON(body)` writes. A nil slice is `null`; the keys of a map
come in sorted order. -/
def JSON.render (json : JSON) : Body → String
  | .error msg => "\x7b\"error\":" ++ json.string msg ++ "\x7d"
  | .message msg => "\x7b\"message\":" ++ json.string msg ++ "\x7d"
  | .content c => json.content c
  | .contents none => "null"
  | .contents (some cs) => "[" ++ ",".intercalate (cs.map json.content) ++ "]"
  | .text s => json.string s
  | .view id title author description created_at updated_at =>
    "\x7b\"author\":" ++ toString author ++
    ",\"created_at\":" ++ json.time created_at ++
    ",\"description\":" ++ json.string description ++
    ",\"id\":" ++ toString id ++
    ",\"title\":" ++ json.string title ++
    ",\"updated_at\":" ++ json.time updated_at ++ "\x7d"

namespace ContentHandler

variable {σ : Type}

/-! ### Logged store calls: each runs the interface method on the current
state and appends the call to the log. -/

def pgCreateContent (h : ContentHandler σ) (content : Content) (r : Run σ) :
    GoError × Content × Run σ :=
  let out := h.PG.CreateContent content r.state
  (out.1, out.2.1, { state := out.2.2, calls := r.calls ++ [Call.pgCreateContent content] })

def pgFindContents (h : ContentHandler σ) (contents : ContentSlice) (r : Run σ) :
    GoError × ContentSlice × Run σ :=
  let out := h.PG.FindContents contents r.state
  (out.1, out.2.1, { state := out.2.2, calls := r.calls ++ [Call.pgFindContents] })

def pgGetContent (h : ContentHandler σ) (id : String) (content : Content) (r : Run σ) :
    GoError × Content × Run σ :=
  let out := h.PG.GetContent id content r.state
  (out.1, out.2.1, { state := out.2.2, calls := r.calls ++ [Call.pgGetContent id] })

def pgSaveContent (h : ContentHandler σ) (content : Content) (r : Run σ) :
    GoError × Content × Run σ :=
  let out := h.PG.SaveContent content r.state
  (out.1, out.2.1, { state := out.2.2, calls := r.calls ++ [Call.pgSaveContent content] })

def pgDeleteContent (h : ContentHandler σ) (content : Content) (r : Run σ) :
    GoError × Content × Run σ :=
  let out := h.PG.DeleteContent content r.state
  (out.1, out.2.1, { state := out.2.2, calls := r.calls ++ [Call.pgDeleteContent content] })

def mongoInsertContentBody (h : ContentHandler σ) (contentBody : ContentBody) (r : Run σ) :
    GoError × ContentBody × Run σ :=
  let out := h.Mongo.InsertContentBody contentBody r.state
  (out.1, out.2.1,
    { state := out.2.2, calls := r.calls ++ [Call.mongoInsertContentBody contentBody] })

def mongoGetContentBody (h : ContentHandler σ) (filter : Filter) (contentBody : ContentBody)
    (r : Run σ) : GoError × ContentBody × Run σ :=
  let out := h.Mongo.GetContentBody filter contentBody r.state
  (out.1, out.2.1, { state := out.2.2, calls := r.calls ++ [Call.mongoGetContentBody filter] })

def mongoUpdateContentBody (h : ContentHandler σ) (filter : Filter) (update : Update)
    (r : Run σ) : GoError × Run σ :=
  let out := h.Mongo.UpdateContentBody filter update r.state
  (out.1, { state := out.2, calls := r.calls ++ [Call.mongoUpdateContentBody filter update] })

def mongoDeleteContentBody (h : ContentHandler σ) (filter : Filter) (r : Run σ) :
    GoError × Run σ :=
  let out := h.Mongo.DeleteContentBody filter r.state
  (out.1, { state := out.2, calls := r.calls ++ [Call.mongoDeleteContentBody filter] })

def cacheGet (h : ContentHandler σ) (key : String) (r : Run σ) :
    (String × GoError) × Run σ :=
  let out := h.Cache.Get key r.state
  (out.1, { state := out.2, calls := r.calls ++ [Call.cacheGet key] })

def cacheSet (h : ContentHandler σ) (key value : String) (expiration : Duration) (r : Run σ) :
    GoError × Run σ :=
  let out := h.Cache.Set key value expiration r.state
  (out.1, { state := out.2, calls := r.calls ++ [Call.cacheSet key value expiration] })

/-! ### The handlers (services/Contents.go, lines 55-199) -/

/-- Handler `CreateContent` (lines 55-90). -/
def CreateContent (h : ContentHandler σ) (c : Ctx) (r : Run σ) : Response × Run σ :=
  match c.Locals "userId" with
  | some (Local.float64 userID) =>
    match c.BodyParser with
    | .error _ => (⟨StatusBadRequest, .error "Invalid request body"⟩, r)
    | .ok req =>
      let content : Content :=
        { Content.zero with
          Title := req.Title, Description := req.Description, UserID := userID.toInt }
      match h.pgCreateContent content r with
      | (some _, _, r1) =>
        (⟨StatusInternalServerError, .error "Failed to create content"⟩, r1)
      | (none, content1, r1) =>
        let contentBody : ContentBody := { ContentID := content1.ID, Body := req.Description }
        match h.mongoInsertContentBody contentBody r1 with
        | (some _, _, r2) =>
          (⟨StatusInternalServerError, .error "Failed to create content body in MongoDB"⟩, r2)
        | (none, _, r2) => (⟨StatusCreated, .content content1⟩, r2)
  | _ => (⟨StatusUnauthorized, .error "User not authorized"⟩, r)

/-- Handler `ListContents` (lines 93-106). -/
def ListContents (fmt : Fmt) (h : ContentHandler σ) (_c : Ctx) (r : Run σ) :
    Response × Run σ :=
  let cacheKey := "contents_list"
  match h.cacheGet cacheKey r with
  | ((cached, err), r1) =>
    if err = none ∧ cached ≠ "" then
      (⟨StatusOK, .text cached⟩, r1)
    else
      match h.pgFindContents none r1 with
      | (some _, _, r2) =>
        (⟨StatusInternalServerError, .error "Failed to retrieve contents"⟩, r2)
      | (none, contents, r2) =>
        match h.cacheSet cacheKey (fmt.Sprintf contents) (10 * Second) r2 with
        | (_, r3) => (⟨StatusOK, .contents contents⟩, r3)

/-- Handler `GetContent` (lines 109-136). -/
def GetContent (h : ContentHandler σ) (c : Ctx) (r : Run σ) : Response × Run σ :=
  let id := c.Params "id"
  match h.pgGetContent id Content.zero r with
  | (some _, _, r1) => (⟨StatusNotFound, .error "Content not found"⟩, r1)
  | (none, content, r1) =>
    match Atoi id with
    | .error _ => (⟨StatusBadRequest, .error "Invalid content ID"⟩, r1)
    | .ok contentID =>
      let filter : Filter := { content_id := contentID }
      match h.mongoGetContentBody filter ContentBody.zero r1 with
      | (some _, _, r2) => (⟨StatusNotFound, .error "Content body not found"⟩, r2)
      | (none, contentBody, r2) =>
        (⟨StatusOK, .view content.ID content.Title content.UserID contentBody.Body
            content.CreatedAt content.UpdatedAt⟩, r2)

/-- Handler `UpdateContent` (lines 139-179). -/
def UpdateContent (h : ContentHandler σ) (c : Ctx) (r : Run σ) : Response × Run σ :=
  let id := c.Params "id"
  match h.pgGetContent id Content.zero r with
  | (some _, _, r1) => (⟨StatusNotFound, .error "Content not found"⟩, r1)
  | (none, content, r1) =>
    match c.BodyParser with
    | .error _ => (⟨StatusBadRequest, .error "Invalid request body"⟩, r1)
    | .ok req =>
      let content1 : Content :=
        { content with Title := req.Title, Description := req.Description }
      match h.pgSaveContent content1 r1 with
      | (some _, _, r2) =>
        (⟨StatusInternalServerError, .error "Failed to save content"⟩, r2)
      | (none, content2, r2) =>
        match Atoi id with
        | .error _ => (⟨StatusBadRequest, .error "Invalid content ID"⟩, r2)
        | .ok contentID =>
          let filter : Filter := { content_id := contentID }
          let update : Update := { body := req.Description, title := req.Title }
          match h.mongoUpdateContentBody filter update r2 with
          | (some _, r3) =>
            (⟨StatusInternalServerError, .error "Failed to update MongoDB"⟩, r3)
          | (none, r3) => (⟨StatusOK, .content content2⟩, r3)

/-- Handler `DeleteContent` (lines 182-199). -/
def DeleteContent (h : ContentHandler σ) (c : Ctx) (r : Run σ) : Response × Run σ :=
  let id := c.Params "id"
  match h.pgGetContent id Content.zero r with
  | (some _, _, r1) => (⟨StatusNotFound, .error "Content not found"⟩, r1)
  | (none, content, r1) =>
    match h.pgDeleteContent content r1 with
    | (some _, _, r2) =>
      (⟨StatusInternalServerError, .error "Failed to delete content"⟩, r2)
    | (none, _, r2) =>
      match Atoi id with
      | .error _ => (⟨StatusBadRequest, .error "Invalid content ID"⟩, r2)
      | .ok contentID =>
        let filter : Filter := { content_id := contentID }
        match h.mongoDeleteContentBody filter r2 with
        | (_, r3) => (⟨StatusOK, .message "Content deleted successfully"⟩, r3)

end ContentHandler

/-! ## utils: AuthClaims and AuthMiddleware -/

/-- The struct `utils.AuthClaims` (the embedded `jwt.RegisteredClaims` is not
read by the middleware). -/
structure AuthClaims where
  Id : String
  Username : String
  deriving DecidableEq, Repr

/-- A parsed `*jwt.Token`: its claims and its `Valid` flag. The claims are the
`*AuthClaims` handed to `ParseWithClaims`, so the type assertion
`token.Claims.(*AuthClaims)` succeeds. -/
structure Token where
  Claims : AuthClaims
  Valid : Bool
  deriving DecidableEq, Repr

/-- The library call `jwt.ParseWithClaims(cookie, &AuthClaims{}, keyFunc)` with
a key function that returns the secret: a parameter of the embedding. -/
structure JWT where
  ParseWithClaims : (cookie : String) → (secretKey : String) → Except String Token

/-- What a middleware does with a request: answer it, crash the process
(Go `panic`), or hand the context on to the next handler (`c.Next()`). -/
inductive Middleware where
  | respond (resp : Response)
  | crash (msg : String)
  | next (c : Ctx)

/-- Middleware `AuthMiddleware` (utils/authMiddleware.go); `env` is
`os.LookupEnv`. -/
def AuthMiddleware (jwt : JWT) (env : String → Option String) (c : Ctx) : Middleware :=
  let cookie := c.Get "auth_token"
  if cookie = "" then
    .respond ⟨StatusUnauthorized, .error "Unauthorized"⟩
  else
    match env "SECRET_KEY" with
    | none => .crash "SECRET_KEY not found"
    | some secretKey =>
      match jwt.ParseWithClaims cookie secretKey with
      | .error _ => .respond ⟨StatusUnauthorized, .error "Unauthorized"⟩
      | .ok token =>
        if !token.Valid then
          .respond ⟨StatusUnauthorized, .error "Unauthorized"⟩
        else
          .next ((c.setLocal "user_id" (.str token.Claims.Id)).setLocal "username"
            (.str token.Claims.Username))

/-! ## Test doubles (test/contents_test.go)

The mocks of the test suite return a fixed `error` from every method; where a
test installs a `Run` hook, a successful lookup copies a fixed value into the
pointee. -/

/-- The fixed return values of a set of mocks. -/
structure MockPlan where
  pgCreate : GoError := none
  pgFind : GoError := none
  pgGet : GoError := none
  pgSave : GoError := none
  pgDelete : GoError := none
  mongoInsert : GoError := none
  mongoGet : GoError := none
  mongoUpdate : GoError := none
  mongoDelete : GoError := none
  cacheGetValue : String := ""
  cacheGet : GoError := none
  cacheSet : GoError := none
  content : Content := Content.zero
  contents : ContentSlice := none
  contentBody : ContentBody := ContentBody.zero

/-- The mock `MockPGRepository`. -/
def MockPGRepository (m : MockPlan) : PostgresRepository Unit :=
  { CreateContent := fun content s => (m.pgCreate, content, s)
    FindContents := fun contents s =>
      (m.pgFind, if m.pgFind = none then m.contents else contents, s)
    GetContent := fun _ content s =>
      (m.pgGet, if m.pgGet = none then m.content else content, s)
    SaveContent := fun content s => (m.pgSave, content, s)
    DeleteContent := fun content s => (m.pgDelete, content, s) }

/-- The mock `MockMongoRepository`. -/
def MockMongoRepository (m : MockPlan) : MongoRepository Unit :=
  { InsertContentBody := fun contentBody s => (m.mongoInsert, contentBody, s)
    GetContentBody := fun _ contentBody s =>
      (m.mongoGet, if m.mongoGet = none then m.contentBody else contentBody, s)
    UpdateContentBody := fun _ _ s => (m.mongoUpdate, s)
    DeleteContentBody := fun _ s => (m.mongoDelete, s) }

/-- The mock `MockCacheRepository`. -/
def MockCacheRepository (m : MockPlan) : CacheRepository Unit :=
  { Get := fun _ s => ((m.cacheGetValue, m.cacheGet), s)
    Set := fun _ _ _ s => (m.cacheSet, s) }

/-- A handler over the three mocks, as the tests build it. -/
def mockHandler (m : MockPlan) : ContentHandler Unit :=
  NewContentHandler (MockPGRepository m) (MockMongoRepository m) (MockCacheRepository m)

/-- A request with route parameter `id`. -/
def requestWithId (id : String) (body : Except String ContentRequest) : Ctx :=
  Ctx.request [("id", id)] [] body

/-! ## Routing (main.go, lines 53-55; routes/private.go)

The content routes are registered on `app.Use(utils.AuthMiddleware())`: a
request to `POST /collection` runs `AuthMiddleware` on a fresh context and, if
the middleware calls `c.Next()`, `CreateContent` on the context it left. -/

/-- The route `POST /collection`; `none` when the process panics. -/
def postCollection {σ : Type} (jwt : JWT) (env : String → Option String)
    (h : ContentHandler σ) (c : Ctx) (r : Run σ) : Option (Response × Run σ) :=
  match AuthMiddleware jwt env c with
  | .respond resp => some (resp, r)
  | .crash _ => none
  | .next c1 => some (h.CreateContent c1 r)

/-- A JWT library double on which every token verifies, with fixed claims. -/
def jwtAccepting (claims : AuthClaims) : JWT :=
  { ParseWithClaims := fun _ _ => .ok { Claims := claims, Valid := true } }

/-- An environment in which only `SECRET_KEY` is set. -/
def envWithSecret (secret : String) : String → Option String :=
  fun name => if name = "SECRET_KEY" then some secret else none

/-- A request with route parameter `id` that carries the owner local the
handler `CreateContent` reads. -/
def authorisedRequest (id : String) (owner : Int) (req : ContentRequest) : Ctx :=
  (requestWithId id (.ok req)).setLocal "userId" (.float64 (Float64.ofInt owner))

/-- A formatter double: `%v` prints a content as its title. -/
def fmtTitles : Fmt :=
  { content := fun content => content.Title }

/-! ## In-memory substitute stores

The three stores as in-memory maps behind the repository interfaces: a table
of content rows with an auto-incrementing id and soft delete (the embedded
`gorm.Model`), a collection of content bodies keyed by `content_id`, and a
key/value cache whose entries expire.  Each store can be switched off, in which
case every call on it returns an error and changes nothing. -/

/-- One cache entry. -/
structure CacheEntry where
  key : String
  value : String
  expiresAt : Time
  deriving DecidableEq, Repr

/-- The state of the three in-memory stores and the clock they share. -/
structure MemWorld where
  now : Time
  rows : List Content
  nextID : Nat
  docs : List ContentBody
  cache : List CacheEntry
  pgDown : Bool
  mongoDown : Bool
  cacheDown : Bool
  deriving DecidableEq, Repr

namespace MemWorld

/-- Empty stores, all up, with ids starting at 1. -/
def empty : MemWorld :=
  { now := 0, rows := [], nextID := 1, docs := [], cache := [],
    pgDown := false, mongoDown := false, cacheDown := false }

/-- Let `d` nanoseconds pass. -/
def advance (d : Duration) (w : MemWorld) : MemWorld := { w with now := w.now + d }

/-- Ids are never reused: every row and every body carries an id below the
next one to be assigned. -/
def Fresh (w : MemWorld) : Prop :=
  (∀ row ∈ w.rows, row.ID < w.nextID) ∧ (∀ doc ∈ w.docs, doc.ContentID < w.nextID)

/-- The rows that are not soft-deleted. -/
def live (w : MemWorld) : List Content := w.rows.filter (fun row => row.DeletedAt = none)

/-- Insert a row: the store assigns the next id and both timestamps. -/
def CreateContent (content : Content) (w : MemWorld) : GoError × Content × MemWorld :=
  if w.pgDown then (some "connection refused", content, w)
  else
    let row : Content :=
      { content with ID := w.nextID, CreatedAt := w.now, UpdatedAt := w.now }
    (none, row, { w with rows := w.rows ++ [row], nextID := w.nextID + 1 })

/-- All live rows. -/
def FindContents (contents : ContentSlice) (w : MemWorld) :
    GoError × ContentSlice × MemWorld :=
  if w.pgDown then (some "connection refused", contents, w)
  else (none, some w.live, w)

/-- The first live row whose primary key is the number `id` spells; any other
condition string is outside this store and gives an error. -/
def GetContent (id : String) (content : Content) (w : MemWorld) :
    GoError × Content × MemWorld :=
  if w.pgDown then (some "connection refused", content, w)
  else
    match Atoi id with
    | .error _ => (some "invalid condition", content, w)
    | .ok n =>
      match w.live.find? (fun row => (row.ID : Int) = n) with
      | none => (some "record not found", content, w)
      | some row => (none, row, w)

/-- Upsert by id; the store stamps `UpdatedAt`. -/
def SaveContent (content : Content) (w : MemWorld) : GoError × Content × MemWorld :=
  if w.pgDown then (some "connection refused", content, w)
  else
    let row : Content := { content with UpdatedAt := w.now }
    if w.rows.any (fun r => r.ID = row.ID) then
      (none, row, { w with rows := w.rows.map (fun r => if r.ID = row.ID then row else r) })
    else
      (none, row, { w with rows := w.rows ++ [row] })

/-- Soft delete by id: the live rows with that id are stamped `DeletedAt`. -/
def DeleteContent (content : Content) (w : MemWorld) : GoError × Content × MemWorld :=
  if w.pgDown then (some "connection refused", content, w)
  else
    let rows := w.rows.map (fun r =>
      if r.ID = content.ID ∧ r.DeletedAt = none then { r with DeletedAt := some w.now }
      else r)
    (none, content, { w with rows := rows })

/-- Append a body to the collection. -/
def InsertContentBody (contentBody : ContentBody) (w : MemWorld) :
    GoError × ContentBody × MemWorld :=
  if w.mongoDown then (some "server selection timeout", contentBody, w)
  else (none, contentBody, { w with docs := w.docs ++ [contentBody] })

/-- The first body whose `content_id` matches the filter. -/
def GetContentBody (filter : Filter) (contentBody : ContentBody) (w : MemWorld) :
    GoError × ContentBody × MemWorld :=
  if w.mongoDown then (some "server selection timeout", contentBody, w)
  else
    match w.docs.find? (fun doc => (doc.ContentID : Int) = filter.content_id) with
    | none => (some "mongo: no documents in result", contentBody, w)
    | some doc => (none, doc, w)

/-- Set the body of every matching document (the `title` the update also sets
is no field of `models.ContentBody` and is read by nothing). -/
def UpdateContentBody (filter : Filter) (update : Update) (w : MemWorld) :
    GoError × MemWorld :=
  if w.mongoDown then (some "server selection timeout", w)
  else
    let docs := w.docs.map (fun doc =>
      if (doc.ContentID : Int) = filter.content_id then { doc with Body := update.body }
      else doc)
    (none, { w with docs := docs })

/-- The collection without its first document that satisfies `p`. -/
def removeFirst (p : ContentBody → Bool) : List ContentBody → List ContentBody
  | [] => []
  | doc :: docs => if p doc then docs else doc :: removeFirst p docs

/-- Remove the first matching document. -/
def DeleteContentBody (filter : Filter) (w : MemWorld) : GoError × MemWorld :=
  if w.mongoDown then (some "server selection timeout", w)
  else
    let docs := removeFirst (fun doc => decide ((doc.ContentID : Int) = filter.content_id)) w.docs
    (none, { w with docs := docs })

/-- The value under `key` while its entry has not expired; a missing or
expired key is the error `redis: nil` with an empty value. -/
def Get (key : String) (w : MemWorld) : (String × GoError) × MemWorld :=
  if w.cacheDown then (("", some "connection refused"), w)
  else
    match w.cache.find? (fun e => e.key = key ∧ w.now < e.expiresAt) with
    | none => (("", some "redis: nil"), w)
    | some e => ((e.value, none), w)

/-- Store `value` under `key` until `expiration` has passed. -/
def Set (key value : String) (expiration : Duration) (w : MemWorld) : GoError × MemWorld :=
  if w.cacheDown then (some "connection refused", w)
  else
    let entry : CacheEntry := { key := key, value := value, expiresAt := w.now + expiration }
    (none, { w with cache := entry :: w.cache.filter (fun e => e.key ≠ key) })

end MemWorld

/-- The handler over the in-memory stores. -/
def memHandler : ContentHandler MemWorld :=
  NewContentHandler
    { CreateContent := MemWorld.CreateContent
      FindContents := MemWorld.FindContents
      GetContent := MemWorld.GetContent
      SaveContent := MemWorld.SaveContent
      DeleteContent := MemWorld.DeleteContent }
    { InsertContentBody := MemWorld.InsertContentBody
      GetContentBody := MemWorld.GetContentBody
      UpdateContentBody := MemWorld.UpdateContentBody
      DeleteContentBody := MemWorld.DeleteContentBody }
    { Get := MemWorld.Get
      Set := MemWorld.Set }

/-- The path parameter a client builds from a record id: its decimal digits. -/
def idParam (id : Nat) : String := toString id

/-- A JSON double for texts that need no escaping: strings are written as
they are and every time as `null`. -/
def jsonPlain : JSON :=
  { escape := fun s => s, time := fun _ => "null" }

/-- What the three id-taking handlers guarantee on an id that `strconv.Atoi`
rejects: the relational lookup with the raw id is their first store call, no
call goes to the document store or to the cache, a failed lookup gives 404,
a 400 is given only after a successful lookup, and the answer is never 200. -/
def NonNumericIdOutcome {σ : Type} (h : ContentHandler σ) (c : Ctx) (s : σ)
    (out : Response × Run σ) : Prop :=
  out.2.calls.head? = some (Call.pgGetContent (c.Params "id")) ∧
  (∀ call ∈ out.2.calls, call.isMongo = false ∧ call.isCache = false) ∧
  ((h.PG.GetContent (c.Params "id") Content.zero s).1 ≠ none →
    out.1 = ⟨404, .error "Content not found"⟩) ∧
  (out.1.status = 400 → (h.PG.GetContent (c.Params "id") Content.zero s).1 = none) ∧
  out.1.status ≠ 200

/-! ## Runs that differ only in the error values of the stores -/

/-- Two results `(err, rest)` of a store method that fail or succeed together
and agree on everything but the error value. -/
def agreeButError {α : Type} (a b : GoError × α) : Prop :=
  a.1.isSome = b.1.isSome ∧ a.2 = b.2

/-- Two results `((value, err), state)` of `Cache.Get` that fail or succeed
together and agree on everything but the error value. -/
def agreeButErrorGet {α : Type} (a b : (String × GoError) × α) : Prop :=
  a.1.1 = b.1.1 ∧ a.1.2.isSome = b.1.2.isSome ∧ a.2 = b.2

/-- Two sets of stores whose methods, on the same arguments in the same state,
succeed or fail together and differ at most in the error value returned. -/
def SameButErrorValues {σ : Type} (h h1 : ContentHandler σ) : Prop :=
  (∀ content s, agreeButError (h.PG.CreateContent content s) (h1.PG.CreateContent content s)) ∧
  (∀ contents s, agreeButError (h.PG.FindContents contents s) (h1.PG.FindContents contents s)) ∧
  (∀ id content s,
    agreeButError (h.PG.GetContent id content s) (h1.PG.GetContent id content s)) ∧
  (∀ content s, agreeButError (h.PG.SaveContent content s) (h1.PG.SaveContent content s)) ∧
  (∀ content s, agreeButError (h.PG.DeleteContent content s) (h1.PG.DeleteContent content s)) ∧
  (∀ body s,
    agreeButError (h.Mongo.InsertContentBody body s) (h1.Mongo.InsertContentBody body s)) ∧
  (∀ filter body s,
    agreeButError (h.Mongo.GetContentBody filter body s)
      (h1.Mongo.GetContentBody filter body s)) ∧
  (∀ filter update s,
    agreeButError (h.Mongo.UpdateContentBody filter update s)
      (h1.Mongo.UpdateContentBody filter update s)) ∧
  (∀ filter s,
    agreeButError (h.Mongo.DeleteContentBody filter s) (h1.Mongo.DeleteContentBody filter s)) ∧
  (∀ key s, agreeButErrorGet (h.Cache.Get key s) (h1.Cache.Get key s)) ∧
  (∀ key value ttl s,
    agreeButError (h.Cache.Set key value ttl s) (h1.Cache.Set key value ttl s))

/-! ## The staleness scenario (spec, section 8) -/

/-- The four responses of the scenario Create, List, Update, List, each with
the run it left. -/
structure StaleRun where
  create : Response × Run MemWorld
  list1 : Response × Run MemWorld
  update : Response × Run MemWorld
  list2 : Response × Run MemWorld

/-- Create a record, list, update the record, list again, over the in-memory
stores; `d0`, `d1` and `d2` nanoseconds pass between the four calls. -/
def staleScenario (fmt : Fmt) (w : MemWorld) (cCreate cList cUpdate : Ctx)
    (d0 d1 d2 : Duration) : StaleRun :=
  let o1 := memHandler.CreateContent cCreate (Run.start w)
  let o2 := memHandler.ListContents fmt cList (Run.start (o1.2.state.advance d0))
  let o3 := memHandler.UpdateContent cUpdate (Run.start (o2.2.state.advance d1))
  let o4 := memHandler.ListContents fmt cList (Run.start (o3.2.state.advance d2))
  { create := o1, list1 := o2, update := o3, list2 := o4 }

/-! ## User login (models/user.go, services/userHandlers.go) -/

/-- The struct `models.User`. -/
structure User where
  ID : Nat
  Username : String
  Email : String
  Password : String
  IsActive : Bool
  IsBanned : Bool
  FailedAttempts : Int
  LastFailedAttempt : Time
  LockoutUntil : Option Time
  deriving DecidableEq, Repr

/-- The Go zero value `models.User{}`. -/
def User.zero : User :=
  { ID := 0, Username := "", Email := "", Password := "", IsActive := false,
    IsBanned := false, FailedAttempts := 0, LastFailedAttempt := 0, LockoutUntil := none }

/-- The struct `LoginRequest`. -/
structure LoginRequest where
  Username : String
  Email : String
  Password : String
  deriving DecidableEq, Repr

/-- The interface `UserRepository` (lines 34-38). -/
structure UserRepository (σ : Type) where
  Create : User → σ → GoError × User × σ
  FindByUsernameOrEmail : String → String → User → σ → GoError × User × σ

/-- The interface `TokenService` (lines 40-42). -/
structure TokenService (σ : Type) where
  CreateNewAuthToken : String → String → σ → (String × GoError) × σ

/-- The struct `Handler`. -/
structure Handler (σ : Type) where
  UserRepo : UserRepository σ
  TokenService : TokenService σ

/-- The library call `bcrypt.CompareHashAndPassword(hash, password)`, a
parameter of the embedding. -/
structure Bcrypt where
  CompareHashAndPassword : (hashedPassword password : String) → GoError

/-- The struct `fiber.Cookie`, with the fields the handlers set. -/
structure Cookie where
  Name : String
  Value : String
  Expires : Time
  HTTPOnly : Bool
  Secure : Bool
  deriving DecidableEq, Repr

/-- What a user handler leaves on the context: the response and the cookie
set with `c.Cookie`, if any. -/
structure Reply where
  resp : Response
  cookie : Option Cookie
  deriving DecidableEq, Repr

/-- The constant `time.Hour`. -/
def Hour : Duration := 3600 * Second

def StatusForbidden : Nat := 403
def StatusTooManyRequests : Nat := 429

/-- One call on the user repository or on the token service. -/
inductive UserCall where
  | create (user : User)
  | findByUsernameOrEmail (username email : String)
  | createNewAuthToken (userID username : String)
  deriving DecidableEq, Repr

/-- The state of the user stores together with the log of the calls made. -/
structure UserRun (σ : Type) where
  state : σ
  calls : List UserCall

/-- A run that starts in state `s` with an empty call log. -/
def UserRun.start {σ : Type} (s : σ) : UserRun σ := { state := s, calls := [] }

namespace Handler

variable {σ : Type}

/-- Logged call of `UserRepo.FindByUsernameOrEmail`. -/
def findByUsernameOrEmail (h : Handler σ) (username email : String) (user : User)
    (r : UserRun σ) : GoError × User × UserRun σ :=
  let out := h.UserRepo.FindByUsernameOrEmail username email user r.state
  (out.1, out.2.1,
    { state := out.2.2, calls := r.calls ++ [UserCall.findByUsernameOrEmail username email] })

/-- Logged call of `TokenService.CreateNewAuthToken`. -/
def createNewAuthToken (h : Handler σ) (userID username : String) (r : UserRun σ) :
    (String × GoError) × UserRun σ :=
  let out := h.TokenService.CreateNewAuthToken userID username r.state
  (out.1, { state := out.2, calls := r.calls ++ [UserCall.createNewAuthToken userID username] })

/-- Whether the lockout test of lines 159-165 holds; `now` is the reading of
`time.Now()` in it. -/
def lockedOut (user : User) (now : Time) : Bool :=
  decide (user.FailedAttempts ≥ 5) &&
    (match user.LockoutUntil with
     | none => false
     | some lockoutUntil => decide (now < lockoutUntil))

/-- How many times the lockout test reads the clock: `time.Now()` is reached
only when there are five failed attempts and `LockoutUntil` is not nil. -/
def lockoutClockReads (user : User) : Nat :=
  if user.FailedAttempts ≥ 5 ∧ user.LockoutUntil.isSome then 1 else 0

/-- Handler `LoginHandler` (lines 138-191). `body` is the outcome of
`c.BodyParser(&req)`, `clock i` the value of the `i`-th reading of
`time.Now()` during the call. -/
def LoginHandler (bcrypt : Bcrypt) (clock : Nat → Time) (h : Handler σ)
    (body : Except String LoginRequest) (r : UserRun σ) : Reply × UserRun σ :=
  match body with
  | .error _ => (⟨⟨StatusBadRequest, .error "Invalid request body"⟩, none⟩, r)
  | .ok req =>
    match h.findByUsernameOrEmail req.Username req.Email User.zero r with
    | (some _, _, r1) => (⟨⟨StatusNotFound, .error "User not found"⟩, none⟩, r1)
    | (none, user, r1) =>
      if user.IsBanned then
        (⟨⟨StatusForbidden, .error "User is banned"⟩, none⟩, r1)
      else if lockedOut user (clock 0) then
        (⟨⟨StatusTooManyRequests, .error "Account is locked"⟩, none⟩, r1)
      else
        match bcrypt.CompareHashAndPassword user.Password req.Password with
        | some _ => (⟨⟨StatusUnauthorized, .error "Invalid password"⟩, none⟩, r1)
        | none =>
          match h.createNewAuthToken (toString user.ID) user.Username r1 with
          | ((_, some _), r2) =>
            (⟨⟨StatusInternalServerError, .error "Failed to create token"⟩, none⟩, r2)
          | ((signedToken, none), r2) =>
            let cookie : Cookie :=
              { Name := "auth_token", Value := signedToken,
                Expires := clock (lockoutClockReads user) + 24 * Hour,
                HTTPOnly := true, Secure := true }
            (⟨⟨StatusOK, .message "Login successful"⟩, some cookie⟩, r2)

end Handler

/-! ### Test doubles (test/user_test.go) -/

/-- The mock `MockUserRepository`: the lookup copies a fixed user into the
pointee when one is configured and returns a fixed error. -/
def MockUserRepository (found : Option User) (err : GoError) : UserRepository Unit :=
  { Create := fun user s => (none, user, s)
    FindByUsernameOrEmail := fun _ _ user s => (err, found.getD user, s) }

/-- The mock `MockTokenService`. -/
def MockTokenService (token : String) (err : GoError) : TokenService Unit :=
  { CreateNewAuthToken := fun _ _ s => ((token, err), s) }

/-- A password-hash double: the hash of a password is the password behind the
marker `hash:`. -/
def bcryptMarker : Bcrypt :=
  { CompareHashAndPassword := fun hashedPassword password =>
      if hashedPassword = "hash:" ++ password then none
      else some "crypto/bcrypt: hashedPassword is not the hash of the given password" }

/-- The user of `TestLoginHandler_WithMocks`. -/
def fakeUser : User :=
  { User.zero with
    ID := 456, Username := "testuser", Email := "test@example.com",
    Password := "hash:rightpassword", IsBanned := false, FailedAttempts := 0,
    LockoutUntil := none }

/-! # Theorems -/

/-! ## Non-numeric ids (C1) -/

/-- C1, as stated, fails: with mocks that return nil from every method and the
id "abc", GetContent answers 400 only after the relational lookup,
UpdateContent answers 400 only after the relational lookup and the relational
save, and DeleteContent answers 400 only after the relational lookup and the
relational delete; with a lookup that fails, GetContent answers 404, not 400. -/
theorem C1_counterexample :
    (mockHandler {}).GetContent (requestWithId "abc" (.ok ⟨"t", "d"⟩)) (Run.start ()) =
      (⟨400, .error "Invalid content ID"⟩, ⟨(), [Call.pgGetContent "abc"]⟩) ∧
    (mockHandler {}).UpdateContent (requestWithId "abc" (.ok ⟨"t", "d"⟩)) (Run.start ()) =
      (⟨400, .error "Invalid content ID"⟩,
        ⟨(), [Call.pgGetContent "abc",
              Call.pgSaveContent { Content.zero with Title := "t", Description := "d" }]⟩) ∧
    (mockHandler {}).DeleteContent (requestWithId "abc" (.ok ⟨"t", "d"⟩)) (Run.start ()) =
      (⟨400, .error "Invalid content ID"⟩,
        ⟨(), [Call.pgGetContent "abc", Call.pgDeleteContent Content.zero]⟩) ∧
    (mockHandler { pgGet := some "record not found" }).GetContent
        (requestWithId "abc" (.ok ⟨"t", "d"⟩)) (Run.start ()) =
      (⟨404, .error "Content not found"⟩, ⟨(), [Call.pgGetContent "abc"]⟩) := by
  refine ⟨?_, ?_, ?_, ?_⟩ <;> rfl

/-- On an id that `strconv.Atoi` rejects, each of the three id-taking handlers
calls the relational lookup first, calls neither the document store nor the
cache, answers 404 when the lookup fails, 400 only when it succeeded, and
never 200. -/
theorem nonNumericId_outcome {σ : Type} (h : ContentHandler σ) (c : Ctx) (s : σ) (e : String)
    (hid : Atoi (c.Params "id") = Except.error e) :
    NonNumericIdOutcome h c s (h.GetContent c (Run.start s)) ∧
    NonNumericIdOutcome h c s (h.UpdateContent c (Run.start s)) ∧
    NonNumericIdOutcome h c s (h.DeleteContent c (Run.start s)) := by
  rcases hget : h.PG.GetContent (c.Params "id") Content.zero s with ⟨eg, cg, sg⟩
  refine ⟨?_, ?_, ?_⟩
  · cases eg <;>
      simp [NonNumericIdOutcome, ContentHandler.GetContent, ContentHandler.pgGetContent,
        Run.start, hget, hid, Call.isMongo, Call.isCache, StatusNotFound, StatusBadRequest]
  · cases eg with
    | some _ =>
      simp [NonNumericIdOutcome, ContentHandler.UpdateContent, ContentHandler.pgGetContent,
        Run.start, hget, hid, Call.isMongo, Call.isCache, StatusNotFound, StatusBadRequest]
    | none =>
      cases hb : c.BodyParser with
      | error _ =>
        simp [NonNumericIdOutcome, ContentHandler.UpdateContent, ContentHandler.pgGetContent,
          Run.start, hget, hid, hb, Call.isMongo, Call.isCache, StatusNotFound,
          StatusBadRequest]
      | ok req =>
        rcases hsave : h.PG.SaveContent
          { cg with Title := req.Title, Description := req.Description } sg with ⟨es, cs, ss⟩
        cases es <;>
          simp [NonNumericIdOutcome, ContentHandler.UpdateContent,
            ContentHandler.pgGetContent, ContentHandler.pgSaveContent,
            Run.start, hget, hid, hb, hsave, Call.isMongo, Call.isCache, StatusNotFound,
            StatusBadRequest, StatusInternalServerError]
  · cases eg with
    | some _ =>
      simp [NonNumericIdOutcome, ContentHandler.DeleteContent, ContentHandler.pgGetContent,
        Run.start, hget, hid, Call.isMongo, Call.isCache, StatusNotFound, StatusBadRequest]
    | none =>
      rcases hdel : h.PG.DeleteContent cg sg with ⟨ed, cd, sd⟩
      cases ed <;>
        simp [NonNumericIdOutcome, ContentHandler.DeleteContent,
          ContentHandler.pgGetContent, ContentHandler.pgDeleteContent,
          Run.start, hget, hid, hdel, Call.isMongo, Call.isCache, StatusNotFound,
          StatusBadRequest, StatusInternalServerError]

/-- C1, amended: for every request whose id path parameter is rejected by
strconv.Atoi (in particular every id that is not a decimal integer), each of
GetContent, UpdateContent and DeleteContent calls the relational lookup with
the raw id first and makes no call to the document store or the cache. It
answers 404 when the lookup fails and 400 in every other case but a failed
relational write (500): GetContent answers 400 "Invalid content ID" after the
lookup; UpdateContent answers 400 "Invalid request body" after the lookup when
the body does not parse, and 400 "Invalid content ID" after the lookup and a
successful save; DeleteContent answers 400 "Invalid content ID" after the
lookup and a successful delete. -/
theorem C1_nonnumeric_id {σ : Type} (h : ContentHandler σ) (c : Ctx) (s : σ) (e : String)
    (hid : Atoi (c.Params "id") = Except.error e) :
    (NonNumericIdOutcome h c s (h.GetContent c (Run.start s)) ∧
      NonNumericIdOutcome h c s (h.UpdateContent c (Run.start s)) ∧
      NonNumericIdOutcome h c s (h.DeleteContent c (Run.start s))) ∧
    ∀ (found : Content) (s1 : σ),
      h.PG.GetContent (c.Params "id") Content.zero s = (none, found, s1) →
      h.GetContent c (Run.start s) =
        (⟨400, .error "Invalid content ID"⟩, ⟨s1, [Call.pgGetContent (c.Params "id")]⟩) ∧
      (∀ parseError : String, c.BodyParser = Except.error parseError →
        h.UpdateContent c (Run.start s) =
          (⟨400, .error "Invalid request body"⟩,
            ⟨s1, [Call.pgGetContent (c.Params "id")]⟩)) ∧
      (∀ req : ContentRequest, c.BodyParser = Except.ok req →
        ((h.PG.SaveContent
            { found with Title := req.Title, Description := req.Description } s1).1 ≠ none →
          (h.UpdateContent c (Run.start s)).1 = ⟨500, .error "Failed to save content"⟩) ∧
        ∀ (saved : Content) (s2 : σ),
          h.PG.SaveContent
            { found with Title := req.Title, Description := req.Description } s1 =
              (none, saved, s2) →
          h.UpdateContent c (Run.start s) =
            (⟨400, .error "Invalid content ID"⟩,
              ⟨s2, [Call.pgGetContent (c.Params "id"),
                    Call.pgSaveContent
                      { found with Title := req.Title, Description := req.Description }]⟩)) ∧
      ((h.PG.DeleteContent found s1).1 ≠ none →
        (h.DeleteContent c (Run.start s)).1 = ⟨500, .error "Failed to delete content"⟩) ∧
      ∀ (deleted : Content) (s2 : σ),
        h.PG.DeleteContent found s1 = (none, deleted, s2) →
        h.DeleteContent c (Run.start s) =
          (⟨400, .error "Invalid content ID"⟩,
            ⟨s2, [Call.pgGetContent (c.Params "id"), Call.pgDeleteContent found]⟩) := by
  refine ⟨nonNumericId_outcome h c s e hid, ?_⟩
  intro found s1 hget
  refine ⟨?_, ?_, ?_, ?_, ?_⟩
  · simp [ContentHandler.GetContent, ContentHandler.pgGetContent, Run.start, hget, hid,
      StatusBadRequest]
  · intro parseError hb
    simp [ContentHandler.UpdateContent, ContentHandler.pgGetContent, Run.start, hget, hb,
      StatusBadRequest]
  · intro req hb
    constructor
    · intro hfail
      rcases hsave : h.PG.SaveContent
        { found with Title := req.Title, Description := req.Description } s1 with ⟨es, cs, ss⟩
      rw [hsave] at hfail
      cases es with
      | none => exact absurd rfl hfail
      | some _ =>
        simp [ContentHandler.UpdateContent, ContentHandler.pgGetContent,
          ContentHandler.pgSaveContent, Run.start, hget, hb, hsave,
          StatusInternalServerError]
    · intro saved s2 hsave
      simp [ContentHandler.UpdateContent, ContentHandler.pgGetContent,
        ContentHandler.pgSaveContent, Run.start, hget, hb, hsave, hid, StatusBadRequest]
  · intro hfail
    rcases hdel : h.PG.DeleteContent found s1 with ⟨ed, cd, sd⟩
    rw [hdel] at hfail
    cases ed with
    | none => exact absurd rfl hfail
    | some _ =>
      simp [ContentHandler.DeleteContent, ContentHandler.pgGetContent,
        ContentHandler.pgDeleteContent, Run.start, hget, hdel, StatusInternalServerError]
  · intro deleted s2 hdel
    simp [ContentHandler.DeleteContent, ContentHandler.pgGetContent,
      ContentHandler.pgDeleteContent, Run.start, hget, hdel, hid, StatusBadRequest]

/-- Witness for C1: the id "abc" is rejected by Atoi; on the all-nil mocks the
three handlers answer 400 "Invalid content ID". -/
theorem C1_nonnumeric_id_witness :
    Atoi ((requestWithId "abc" (.ok ⟨"t", "d"⟩)).Params "id") = Except.error "invalid syntax" ∧
    NonNumericIdOutcome (mockHandler {}) (requestWithId "abc" (.ok ⟨"t", "d"⟩)) ()
      ((mockHandler {}).GetContent (requestWithId "abc" (.ok ⟨"t", "d"⟩)) (Run.start ())) ∧
    (mockHandler {}).GetContent (requestWithId "abc" (.ok ⟨"t", "d"⟩)) (Run.start ()) =
      (⟨400, .error "Invalid content ID"⟩,
        ⟨(), [Call.pgGetContent ((requestWithId "abc" (.ok ⟨"t", "d"⟩)).Params "id")]⟩) ∧
    (mockHandler {}).DeleteContent (requestWithId "abc" (.ok ⟨"t", "d"⟩)) (Run.start ()) =
      (⟨400, .error "Invalid content ID"⟩,
        ⟨(), [Call.pgGetContent ((requestWithId "abc" (.ok ⟨"t", "d"⟩)).Params "id"),
              Call.pgDeleteContent Content.zero]⟩) := by
  have key := C1_nonnumeric_id (mockHandler {}) (requestWithId "abc" (.ok ⟨"t", "d"⟩)) ()
    "invalid syntax" (by rfl)
  have found := key.2 Content.zero () (by rfl)
  exact ⟨by rfl, key.1.1, found.1, found.2.2.2.2 Content.zero () (by rfl)⟩

/-! ## Update and the document store (C2) -/

/-- C2, as stated, fails: with mocks whose relational lookup and save return
nil and whose document-store update returns an error, UpdateContent on id "1"
answers 500 "Failed to update MongoDB", not 200. -/
theorem C2_counterexample :
    (mockHandler { mongoUpdate := some "connection refused" }).UpdateContent
        (requestWithId "1" (.ok ⟨"Hello2", "World2"⟩)) (Run.start ()) =
      (⟨500, .error "Failed to update MongoDB"⟩,
        ⟨(), [Call.pgGetContent "1",
              Call.pgSaveContent { Content.zero with Title := "Hello2", Description := "World2" },
              Call.mongoUpdateContentBody ⟨1⟩ ⟨"World2", "Hello2"⟩]⟩) := by
  rfl

/-- C2, amended: for every id that parses as a decimal integer and whose
relational lookup succeeds, and every parsable update request, if the
relational save succeeds (leaving title and description as handed to it), then
UpdateContent calls the document-store update after the save and answers 200
with the saved record, which carries the new title and description, when that
update succeeds, and answers 500 "Failed to update MongoDB" when it fails. -/
theorem C2_update_after_save {σ : Type} (h : ContentHandler σ) (c : Ctx) (s : σ)
    (n : Int) (req : ContentRequest) (found saved : Content) (s1 s2 : σ)
    (hid : Atoi (c.Params "id") = Except.ok n)
    (hget : h.PG.GetContent (c.Params "id") Content.zero s = (none, found, s1))
    (hbody : c.BodyParser = Except.ok req)
    (hsave : h.PG.SaveContent
      { found with Title := req.Title, Description := req.Description } s1 = (none, saved, s2))
    (hkeep : saved.Title = req.Title ∧ saved.Description = req.Description) :
    (h.UpdateContent c (Run.start s)).2.calls =
      [Call.pgGetContent (c.Params "id"),
       Call.pgSaveContent { found with Title := req.Title, Description := req.Description },
       Call.mongoUpdateContentBody ⟨n⟩ ⟨req.Description, req.Title⟩] ∧
    ((h.Mongo.UpdateContentBody ⟨n⟩ ⟨req.Description, req.Title⟩ s2).1 = none →
      (h.UpdateContent c (Run.start s)).1 = ⟨200, .content saved⟩ ∧
        saved.Title = req.Title ∧ saved.Description = req.Description) ∧
    ((h.Mongo.UpdateContentBody ⟨n⟩ ⟨req.Description, req.Title⟩ s2).1 ≠ none →
      (h.UpdateContent c (Run.start s)).1 = ⟨500, .error "Failed to update MongoDB"⟩) := by
  rcases hupd : h.Mongo.UpdateContentBody ⟨n⟩ ⟨req.Description, req.Title⟩ s2 with ⟨eu, su⟩
  cases eu <;>
    simp [ContentHandler.UpdateContent, ContentHandler.pgGetContent,
      ContentHandler.pgSaveContent, ContentHandler.mongoUpdateContentBody, Run.start,
      hid, hget, hbody, hsave, hupd, hkeep, StatusOK, StatusInternalServerError]

/-- Witness for C2: id "1" on the all-nil mocks. -/
theorem C2_update_after_save_witness :
    ((mockHandler {}).UpdateContent (requestWithId "1" (.ok ⟨"Hello2", "World2"⟩))
        (Run.start ())).2.calls =
      [Call.pgGetContent "1",
       Call.pgSaveContent { Content.zero with Title := "Hello2", Description := "World2" },
       Call.mongoUpdateContentBody ⟨1⟩ ⟨"World2", "Hello2"⟩] ∧
    ((mockHandler {}).UpdateContent (requestWithId "1" (.ok ⟨"Hello2", "World2"⟩))
        (Run.start ())).1 =
      ⟨200, .content { Content.zero with Title := "Hello2", Description := "World2" }⟩ := by
  have key := C2_update_after_save (mockHandler {})
    (requestWithId "1" (.ok ⟨"Hello2", "World2"⟩)) () 1 ⟨"Hello2", "World2"⟩ Content.zero
    { Content.zero with Title := "Hello2", Description := "World2" } () ()
    (by rfl) (by rfl) (by rfl) (by rfl) ⟨by rfl, by rfl⟩
  exact ⟨key.1, (key.2.1 (by rfl)).1⟩

/-! ## The owner identity handed to Create (C4) -/

/-- The locals `AuthMiddleware` leaves on a fresh request hold no float64
under the key "userId": whenever the middleware hands a fresh request on,
`CreateContent` answers 401 and makes no store call. -/
theorem CreateContent_after_AuthMiddleware {σ : Type} (jwt : JWT)
    (env : String → Option String) (h : ContentHandler σ)
    (params headers : List (String × String)) (body : Except String ContentRequest)
    (c1 : Ctx) (r : Run σ)
    (hpass : AuthMiddleware jwt env (Ctx.request params headers body) = .next c1) :
    h.CreateContent c1 r = (⟨401, .error "User not authorized"⟩, r) := by
  unfold AuthMiddleware at hpass
  simp only at hpass
  split at hpass
  · cases hpass
  · split at hpass
    · cases hpass
    · split at hpass
      · cases hpass
      · split at hpass
        · cases hpass
        · cases hpass
          simp [ContentHandler.CreateContent, Ctx.Locals, Ctx.setLocal, Ctx.request,
            List.lookup, StatusUnauthorized]

/-- C4 fails on the code: a request to POST /collection whose token verifies
with claims (Id "1", Username "alice") passes AuthMiddleware, which stores the
string "1" under "user_id"; CreateContent reads a float64 under "userId",
finds none, answers 401 and writes no record. -/
theorem C4_verified_request_is_unauthorized :
    AuthMiddleware (jwtAccepting ⟨"1", "alice"⟩) (envWithSecret "secret")
        (Ctx.request [] [("auth_token", "signed")] (.ok ⟨"Hello", "World"⟩)) =
      .next { params := [], headers := [("auth_token", "signed")],
              locals := [("username", .str "alice"), ("user_id", .str "1")],
              body := .ok ⟨"Hello", "World"⟩ } ∧
    postCollection (jwtAccepting ⟨"1", "alice"⟩) (envWithSecret "secret") (mockHandler {})
        (Ctx.request [] [("auth_token", "signed")] (.ok ⟨"Hello", "World"⟩)) (Run.start ()) =
      some (⟨401, .error "User not authorized"⟩, ⟨(), []⟩) := by
  constructor <;> rfl

/-! ## Relational write failures (C6) -/

/-- C6: in CreateContent (authorised, parsable request), UpdateContent
(successful lookup, parsable request) and DeleteContent (successful lookup),
if the relational write (create, save, delete respectively) returns an error,
the handler answers 500 and its store calls end with that write: none goes to
the document store. -/
theorem C6_relational_write_failure {σ : Type} (h : ContentHandler σ) (c : Ctx) (s : σ) :
    (∀ (userID : Float64) (req : ContentRequest),
      c.Locals "userId" = some (Local.float64 userID) →
      c.BodyParser = Except.ok req →
      (h.PG.CreateContent { Content.zero with
          Title := req.Title, Description := req.Description, UserID := userID.toInt } s).1 ≠ none →
      (h.CreateContent c (Run.start s)).1 = ⟨500, .error "Failed to create content"⟩ ∧
      (h.CreateContent c (Run.start s)).2.calls =
        [Call.pgCreateContent { Content.zero with
          Title := req.Title, Description := req.Description, UserID := userID.toInt }] ∧
      ∀ call ∈ (h.CreateContent c (Run.start s)).2.calls, call.isMongo = false) ∧
    (∀ (req : ContentRequest) (found : Content) (s1 : σ),
      h.PG.GetContent (c.Params "id") Content.zero s = (none, found, s1) →
      c.BodyParser = Except.ok req →
      (h.PG.SaveContent
        { found with Title := req.Title, Description := req.Description } s1).1 ≠ none →
      (h.UpdateContent c (Run.start s)).1 = ⟨500, .error "Failed to save content"⟩ ∧
      (h.UpdateContent c (Run.start s)).2.calls =
        [Call.pgGetContent (c.Params "id"),
         Call.pgSaveContent { found with Title := req.Title, Description := req.Description }] ∧
      ∀ call ∈ (h.UpdateContent c (Run.start s)).2.calls, call.isMongo = false) ∧
    (∀ (found : Content) (s1 : σ),
      h.PG.GetContent (c.Params "id") Content.zero s = (none, found, s1) →
      (h.PG.DeleteContent found s1).1 ≠ none →
      (h.DeleteContent c (Run.start s)).1 = ⟨500, .error "Failed to delete content"⟩ ∧
      (h.DeleteContent c (Run.start s)).2.calls =
        [Call.pgGetContent (c.Params "id"), Call.pgDeleteContent found] ∧
      ∀ call ∈ (h.DeleteContent c (Run.start s)).2.calls, call.isMongo = false) := by
  refine ⟨?_, ?_, ?_⟩
  · intro userID req hlocal hbody hfail
    rcases hcreate : h.PG.CreateContent { Content.zero with
      Title := req.Title, Description := req.Description, UserID := userID.toInt } s with ⟨ec, cc, sc⟩
    rw [hcreate] at hfail
    cases ec with
    | none => exact absurd rfl hfail
    | some _ =>
      simp [ContentHandler.CreateContent, ContentHandler.pgCreateContent, Run.start,
        hlocal, hbody, hcreate, Call.isMongo, StatusInternalServerError]
  · intro req found s1 hget hbody hfail
    rcases hsave : h.PG.SaveContent
      { found with Title := req.Title, Description := req.Description } s1 with ⟨es, cs, ss⟩
    rw [hsave] at hfail
    cases es with
    | none => exact absurd rfl hfail
    | some _ =>
      simp [ContentHandler.UpdateContent, ContentHandler.pgGetContent,
        ContentHandler.pgSaveContent, Run.start, hget, hbody, hsave, Call.isMongo,
        StatusInternalServerError]
  · intro found s1 hget hfail
    rcases hdel : h.PG.DeleteContent found s1 with ⟨ed, cd, sd⟩
    rw [hdel] at hfail
    cases ed with
    | none => exact absurd rfl hfail
    | some _ =>
      simp [ContentHandler.DeleteContent, ContentHandler.pgGetContent,
        ContentHandler.pgDeleteContent, Run.start, hget, hdel, Call.isMongo,
        StatusInternalServerError]

/-- Witness for C6: mocks whose three relational writes fail, id "1", owner 1. -/
theorem C6_relational_write_failure_witness :
    ((mockHandler { pgCreate := some "down", pgSave := some "down", pgDelete := some "down" }
        ).CreateContent (authorisedRequest "1" 1 ⟨"Hello", "World"⟩) (Run.start ())).1 =
      ⟨500, .error "Failed to create content"⟩ ∧
    ((mockHandler { pgCreate := some "down", pgSave := some "down", pgDelete := some "down" }
        ).UpdateContent (authorisedRequest "1" 1 ⟨"Hello", "World"⟩) (Run.start ())).1 =
      ⟨500, .error "Failed to save content"⟩ ∧
    ((mockHandler { pgCreate := some "down", pgSave := some "down", pgDelete := some "down" }
        ).DeleteContent (authorisedRequest "1" 1 ⟨"Hello", "World"⟩) (Run.start ())).1 =
      ⟨500, .error "Failed to delete content"⟩ := by
  have key := C6_relational_write_failure
    (mockHandler { pgCreate := some "down", pgSave := some "down", pgDelete := some "down" })
    (authorisedRequest "1" 1 ⟨"Hello", "World"⟩) ()
  exact ⟨(key.1 (Float64.ofInt 1) ⟨"Hello", "World"⟩ (by rfl) (by rfl) (by decide)).1,
    (key.2.1 ⟨"Hello", "World"⟩ Content.zero () (by rfl) (by rfl) (by decide)).1,
    (key.2.2 Content.zero () (by rfl) (by decide)).1⟩

/-! ## Delete and the document store (C8) -/

/-- C8, as stated, fails: on mocks whose relational lookup and relational
delete return nil for the id "1a" (and whose document-store delete would
fail), DeleteContent answers 400 "Invalid content ID", not 200, and never
reaches the document store. -/
theorem C8_counterexample :
    (mockHandler { mongoDelete := some "connection refused" }).PG.GetContent "1a"
        Content.zero () = (none, Content.zero, ()) ∧
    (mockHandler { mongoDelete := some "connection refused" }).PG.DeleteContent
        Content.zero () = (none, Content.zero, ()) ∧
    (mockHandler { mongoDelete := some "connection refused" }).DeleteContent
        (requestWithId "1a" (.error "no body")) (Run.start ()) =
      (⟨400, .error "Invalid content ID"⟩,
        ⟨(), [Call.pgGetContent "1a", Call.pgDeleteContent Content.zero]⟩) := by
  refine ⟨?_, ?_, ?_⟩ <;> rfl

/-- C8, amended: for every id that parses as a decimal integer (strconv.Atoi
accepts it), whose relational lookup succeeds and whose relational delete
succeeds, DeleteContent calls the document-store delete once and answers 200
"Content deleted successfully" whatever that call returns. -/
theorem C8_delete_swallows_document_failure {σ : Type} (h : ContentHandler σ) (c : Ctx)
    (s : σ) (n : Int) (found deleted : Content) (s1 s2 : σ)
    (hid : Atoi (c.Params "id") = Except.ok n)
    (hget : h.PG.GetContent (c.Params "id") Content.zero s = (none, found, s1))
    (hdel : h.PG.DeleteContent found s1 = (none, deleted, s2)) :
    (h.DeleteContent c (Run.start s)).1 = ⟨200, .message "Content deleted successfully"⟩ ∧
    (h.DeleteContent c (Run.start s)).2.calls =
      [Call.pgGetContent (c.Params "id"), Call.pgDeleteContent found,
       Call.mongoDeleteContentBody ⟨n⟩] ∧
    (h.DeleteContent c (Run.start s)).2.state = (h.Mongo.DeleteContentBody ⟨n⟩ s2).2 := by
  simp [ContentHandler.DeleteContent, ContentHandler.pgGetContent,
    ContentHandler.pgDeleteContent, ContentHandler.mongoDeleteContentBody, Run.start,
    hid, hget, hdel, StatusOK]

/-- Witness for C8: id "1" on mocks whose document-store delete fails. -/
theorem C8_delete_swallows_document_failure_witness :
    (mockHandler { mongoDelete := some "connection refused" }).Mongo.DeleteContentBody ⟨1⟩ () =
      (some "connection refused", ()) ∧
    ((mockHandler { mongoDelete := some "connection refused" }).DeleteContent
        (requestWithId "1" (.error "no body")) (Run.start ())).1 =
      ⟨200, .message "Content deleted successfully"⟩ :=
  ⟨by rfl, (C8_delete_swallows_document_failure
    (mockHandler { mongoDelete := some "connection refused" })
    (requestWithId "1" (.error "no body")) () 1 Content.zero Content.zero () ()
    (by rfl) (by rfl) (by rfl)).1⟩

/-! ## The list cache (C9, C10) -/

/-- C9: when the cache returns a non-empty value and a nil error for the key
"contents_list", ListContents answers 200 with that value and its only store
call is the cache read: the relational store is not called. -/
theorem C9_cache_hit {σ : Type} (fmt : Fmt) (h : ContentHandler σ) (c : Ctx) (s s1 : σ)
    (cached : String)
    (hhit : h.Cache.Get "contents_list" s = ((cached, none), s1))
    (hne : cached ≠ "") :
    (h.ListContents fmt c (Run.start s)).1 = ⟨200, .text cached⟩ ∧
    (h.ListContents fmt c (Run.start s)).2.calls = [Call.cacheGet "contents_list"] ∧
    (∀ call ∈ (h.ListContents fmt c (Run.start s)).2.calls, call.isPG = false) ∧
    (h.ListContents fmt c (Run.start s)).2.state = s1 := by
  simp [ContentHandler.ListContents, ContentHandler.cacheGet, Run.start, hhit, hne,
    Call.isPG, StatusOK]

/-- Witness for C9: mocks whose cache returns "[Hello]". -/
theorem C9_cache_hit_witness :
    ((mockHandler { cacheGetValue := "[Hello]" }).ListContents fmtTitles
        (Ctx.request [] [] (.error "no body")) (Run.start ())).1 = ⟨200, .text "[Hello]"⟩ ∧
    ((mockHandler { cacheGetValue := "[Hello]" }).ListContents fmtTitles
        (Ctx.request [] [] (.error "no body")) (Run.start ())).2.calls =
      [Call.cacheGet "contents_list"] := by
  have key := C9_cache_hit fmtTitles (mockHandler { cacheGetValue := "[Hello]" })
    (Ctx.request [] [] (.error "no body")) () () "[Hello]" (by rfl) (by decide)
  exact ⟨key.1, key.2.1⟩

/-- C10: when the cache read returns an error (whatever value comes with it)
or an empty value, ListContents reads all rows from the relational store; if
that read fails it answers 500, and otherwise it calls the cache set once with
the key "contents_list" and a TTL of 10 seconds and answers 200 with the rows,
whatever the cache set returns. -/
theorem C10_cache_failures_are_not_fatal {σ : Type} (fmt : Fmt) (h : ContentHandler σ)
    (c : Ctx) (s s1 : σ) (cached : String) (err : GoError)
    (hget : h.Cache.Get "contents_list" s = ((cached, err), s1))
    (hmiss : err ≠ none ∨ cached = "") :
    ((h.PG.FindContents none s1).1 ≠ none →
      (h.ListContents fmt c (Run.start s)).1 =
        ⟨500, .error "Failed to retrieve contents"⟩ ∧
      (h.ListContents fmt c (Run.start s)).2.calls =
        [Call.cacheGet "contents_list", Call.pgFindContents]) ∧
    (∀ (rows : ContentSlice) (s2 : σ), h.PG.FindContents none s1 = (none, rows, s2) →
      (h.ListContents fmt c (Run.start s)).1 = ⟨200, .contents rows⟩ ∧
      (h.ListContents fmt c (Run.start s)).2.calls =
        [Call.cacheGet "contents_list", Call.pgFindContents,
         Call.cacheSet "contents_list" (fmt.Sprintf rows) (10 * 1000000000)]) := by
  have hcond : ¬ (err = none ∧ cached ≠ "") := by
    rintro ⟨h1, h2⟩
    rcases hmiss with h3 | h3
    · exact h3 h1
    · exact h2 h3
  refine ⟨?_, ?_⟩
  · intro hfail
    rcases hfind : h.PG.FindContents none s1 with ⟨ef, rows, sf⟩
    rw [hfind] at hfail
    cases ef with
    | none => exact absurd rfl hfail
    | some _ =>
      simp [ContentHandler.ListContents, ContentHandler.cacheGet,
        ContentHandler.pgFindContents, Run.start, hget, hcond, hfind,
        StatusInternalServerError]
  · intro rows s2 hfind
    simp [ContentHandler.ListContents, ContentHandler.cacheGet,
      ContentHandler.pgFindContents, ContentHandler.cacheSet, Run.start, hget, hcond, hfind,
      StatusOK, Second]

/-- Witness for C10: mocks whose cache read and cache set both fail. -/
theorem C10_cache_failures_are_not_fatal_witness :
    ((mockHandler { cacheGet := some "redis down", cacheSet := some "redis down",
                    contents := some [] }).ListContents fmtTitles
        (Ctx.request [] [] (.error "no body")) (Run.start ())).1 =
      ⟨200, .contents (some [])⟩ ∧
    ((mockHandler { cacheGet := some "redis down", cacheSet := some "redis down",
                    contents := some [] }).ListContents fmtTitles
        (Ctx.request [] [] (.error "no body")) (Run.start ())).2.calls =
      [Call.cacheGet "contents_list", Call.pgFindContents,
       Call.cacheSet "contents_list" "[]" 10000000000] := by
  have key := (C10_cache_failures_are_not_fatal fmtTitles
    (mockHandler { cacheGet := some "redis down", cacheSet := some "redis down",
                   contents := some [] })
    (Ctx.request [] [] (.error "no body")) () () "" (some "redis down") (by rfl)
    (Or.inl (by decide))).2 (some []) () (by rfl)
  exact ⟨key.1, key.2⟩

/-! ## strconv.Atoi reads back the decimal digits of a number -/

theorem digitChar_isDigit (m : Nat) (hm : m < 10) :
    (Nat.digitChar m).isDigit = true ∧ (Nat.digitChar m).toNat - 48 = m := by
  interval_cases m <;> exact ⟨by decide, by decide⟩

theorem parseDigits_toDigitsCore (fuel : Nat) :
    ∀ (n : Nat) (acc : List Char), n < fuel →
      parseDigits 0 (Nat.toDigitsCore 10 fuel n acc) = parseDigits n acc := by
  induction fuel with
  | zero => intro n acc hn; omega
  | succ fuel ih =>
    intro n acc hn
    have hd := digitChar_isDigit (n % 10) (Nat.mod_lt n (by decide))
    by_cases hq : n / 10 = 0
    · have hlt : n % 10 = n := Nat.mod_eq_of_lt (by omega)
      rw [hlt] at hd
      simp [Nat.toDigitsCore, hq, parseDigits, hd.1, hd.2, hlt]
    · have hrec := ih (n / 10) (Nat.digitChar (n % 10) :: acc) (by omega)
      have hval : n / 10 * 10 + n % 10 = n := by omega
      simp [Nat.toDigitsCore, hq, hrec, parseDigits, hd.1, hd.2, hval]

theorem toDigitsCore_head (fuel : Nat) :
    ∀ (n : Nat) (acc : List Char), n < fuel →
      ∃ c cs, Nat.toDigitsCore 10 fuel n acc = c :: cs ∧ c.isDigit = true := by
  induction fuel with
  | zero => intro n acc hn; omega
  | succ fuel ih =>
    intro n acc hn
    have hd := digitChar_isDigit (n % 10) (Nat.mod_lt n (by decide))
    by_cases hq : n / 10 = 0
    · exact ⟨Nat.digitChar (n % 10), acc, by simp [Nat.toDigitsCore, hq], hd.1⟩
    · obtain ⟨c, cs, hc, hdig⟩ := ih (n / 10) (Nat.digitChar (n % 10) :: acc) (by omega)
      exact ⟨c, cs, by simp [Nat.toDigitsCore, hq, hc], hdig⟩

/-- The path parameter built from an id below `2 ^ 63` parses back to it. -/
theorem Atoi_idParam (n : Nat) (hn : n < 2 ^ 63) : Atoi (idParam n) = Except.ok (n : Int) := by
  obtain ⟨c, cs, hc, hdig⟩ := toDigitsCore_head (n + 1) n [] (Nat.lt_succ_self n)
  have hparse := parseDigits_toDigitsCore (n + 1) n [] (Nat.lt_succ_self n)
  have hdata : (idParam n).data = c :: cs := by
    rw [← hc]; rfl
  have hminus : c ≠ '-' := by
    intro h; rw [h] at hdig; exact absurd hdig (by decide)
  have hplus : c ≠ '+' := by
    intro h; rw [h] at hdig; exact absurd hdig (by decide)
  rw [hc] at hparse
  have hn2 : n < 9223372036854775808 := by simpa using hn
  unfold Atoi
  rw [hdata]
  have hvalue : parseDigits 0 (c :: cs) = some n := by rw [hparse]; rfl
  simp [hminus, hplus, hvalue, hn2]

/-! ## Create, then Get (C5) -/

theorem find_row_fresh (rows : List Content) (k : Nat) (hrows : ∀ row ∈ rows, row.ID < k) :
    rows.find? (fun row => decide (row.DeletedAt = none) && decide (row.ID = k)) = none := by
  rw [List.find?_eq_none]
  intro row hrow
  have hlt := hrows row hrow
  simp only [Bool.and_eq_true, decide_eq_true_eq, not_and]
  omega

theorem find_doc_fresh (docs : List ContentBody) (k : Nat)
    (hdocs : ∀ doc ∈ docs, doc.ContentID < k) :
    docs.find? (fun doc => decide (doc.ContentID = k)) = none := by
  rw [List.find?_eq_none]
  intro doc hdoc
  have hlt := hdocs doc hdoc
  simp only [decide_eq_true_eq]
  omega

theorem Float64.toInt_of_holds (x : Float64) (n : Int) (hx : x.Holds n)
    (hn : -(2 ^ 63) ≤ n ∧ n < 2 ^ 63) : x.toInt = n := by
  have htrunc : x.trunc = n := by
    unfold Float64.Holds at hx
    unfold Float64.trunc
    cases hexp : x.exp with
    | ofNat k => rw [hexp] at hx; exact hx
    | negSucc k =>
      rw [hexp] at hx
      simp only at hx ⊢
      rw [hx]
      exact Int.mul_tdiv_cancel n (pow_ne_zero _ (by decide))
  unfold Float64.toInt
  rw [htrunc, if_pos hn]

/-- The conversion of a value out of range: `int(float64(2 ^ 63))` is the
minimum `int`, and a fraction is dropped toward zero. -/
theorem Float64.toInt_examples :
    (Float64.mk 1 63).toInt = -(2 ^ 63) ∧ (Float64.mk (-7) (-1)).toInt = -3 ∧
    (Float64.mk 7 (-1)).toInt = 3 ∧ (Float64.mk 3 2).toInt = 12 := by
  decide

/-- C5: over the in-memory stores, with the relational and the document store
up, ids never reused and the next id within `int`, for every title,
description and owner id (an integer within `int`, held by the float64 under
"userId"), CreateContent answers 201 with the new record, whose title,
description and UserID are the given ones, and GetContent on the decimal
string of the returned id answers 200 with a view whose title and author are
the created title and owner id and whose description is the body, equal to
the created description. -/
theorem C5_create_then_get (w : MemWorld) (c : Ctx) (title description : String)
    (owner : Float64) (ownerId : Int)
    (hpg : w.pgDown = false) (hmongo : w.mongoDown = false) (hfresh : w.Fresh)
    (hrange : w.nextID < 2 ^ 63)
    (howner : owner.Holds ownerId) (hint : -(2 ^ 63) ≤ ownerId ∧ ownerId < 2 ^ 63)
    (hlocal : c.Locals "userId" = some (Local.float64 owner))
    (hbody : c.BodyParser = Except.ok ⟨title, description⟩) :
    (memHandler.CreateContent c (Run.start w)).1 =
      ⟨201, .content { Content.zero with
          ID := w.nextID, CreatedAt := w.now, UpdatedAt := w.now,
          Title := title, Description := description, UserID := ownerId }⟩ ∧
    ∀ c2 : Ctx, c2.Params "id" = idParam w.nextID →
      (memHandler.GetContent c2
          (Run.start (memHandler.CreateContent c (Run.start w)).2.state)).1 =
        ⟨200, .view w.nextID title ownerId description w.now w.now⟩ := by
  have htoInt := Float64.toInt_of_holds owner ownerId howner hint
  constructor
  · simp [ContentHandler.CreateContent, ContentHandler.pgCreateContent,
      ContentHandler.mongoInsertContentBody, memHandler, NewContentHandler,
      MemWorld.CreateContent, MemWorld.InsertContentBody, Run.start, hpg, hmongo, hlocal,
      hbody, htoInt, StatusCreated, Content.zero]
  · intro c2 hid
    have hrow := find_row_fresh w.rows w.nextID hfresh.1
    have hdoc := find_doc_fresh w.docs w.nextID hfresh.2
    have hatoi := Atoi_idParam w.nextID hrange
    simp [ContentHandler.CreateContent, ContentHandler.GetContent,
      ContentHandler.pgCreateContent, ContentHandler.pgGetContent,
      ContentHandler.mongoInsertContentBody, ContentHandler.mongoGetContentBody,
      memHandler, NewContentHandler, MemWorld.CreateContent, MemWorld.InsertContentBody,
      MemWorld.GetContent, MemWorld.GetContentBody, MemWorld.live,
      Run.start, hpg, hmongo, hlocal, hbody, htoInt, hid, hatoi, hrow, hdoc,
      List.filter_append, List.find?_append, StatusOK, Content.zero]

/-- Witness for C5: Create("Hello", "World") by owner 12, handed over as the
float64 3 * 2 ^ 2, on the empty stores, then Get on id "1". -/
theorem C5_create_then_get_witness :
    MemWorld.empty.Fresh ∧ (Float64.mk 3 2).Holds 12 ∧
    (memHandler.CreateContent
        ((requestWithId "" (.ok ⟨"Hello", "World"⟩)).setLocal "userId" (.float64 ⟨3, 2⟩))
        (Run.start MemWorld.empty)).1 =
      ⟨201, .content { Content.zero with
          ID := 1, CreatedAt := 0, UpdatedAt := 0,
          Title := "Hello", Description := "World", UserID := 12 }⟩ ∧
    (memHandler.GetContent (requestWithId "1" (.error "no body"))
        (Run.start (memHandler.CreateContent
          ((requestWithId "" (.ok ⟨"Hello", "World"⟩)).setLocal "userId" (.float64 ⟨3, 2⟩))
          (Run.start MemWorld.empty)).2.state)).1 =
      ⟨200, .view 1 "Hello" 12 "World" 0 0⟩ := by
  have key := C5_create_then_get MemWorld.empty
    ((requestWithId "" (.ok ⟨"Hello", "World"⟩)).setLocal "userId" (.float64 ⟨3, 2⟩))
    "Hello" "World" ⟨3, 2⟩ 12 (by rfl) (by rfl)
    (by simp [MemWorld.Fresh, MemWorld.empty]) (by decide) (by rfl) (by decide)
    (by rfl) (by rfl)
  exact ⟨by simp [MemWorld.Fresh, MemWorld.empty], by rfl, key.1,
    key.2 (requestWithId "1" (.error "no body")) (by rfl)⟩

/-! ## A failed body insert during Create (C7) -/

/-- C7: over the in-memory stores with the relational store up and the
document store down, CreateContent answers 500 for the failed body insert, its
only relational call is the create (nothing undoes it) and the new row stays
in the table; a following GetContent on that id, with the document store up
or down, passes the relational lookup, asks the document store for the body
and answers 404 "Content body not found". -/
theorem C7_create_partial_failure (w : MemWorld) (c : Ctx) (title description : String)
    (owner : Float64)
    (hpg : w.pgDown = false) (hmongo : w.mongoDown = true) (hfresh : w.Fresh)
    (hrange : w.nextID < 2 ^ 63)
    (hlocal : c.Locals "userId" = some (Local.float64 owner))
    (hbody : c.BodyParser = Except.ok ⟨title, description⟩) :
    (memHandler.CreateContent c (Run.start w)).1 =
      ⟨500, .error "Failed to create content body in MongoDB"⟩ ∧
    (memHandler.CreateContent c (Run.start w)).2.calls =
      [Call.pgCreateContent { Content.zero with
          Title := title, Description := description, UserID := owner.toInt },
       Call.mongoInsertContentBody ⟨w.nextID, description⟩] ∧
    (memHandler.CreateContent c (Run.start w)).2.state.rows =
      w.rows ++ [{ Content.zero with
          ID := w.nextID, CreatedAt := w.now, UpdatedAt := w.now,
          Title := title, Description := description, UserID := owner.toInt }] ∧
    ∀ (down : Bool) (c2 : Ctx), c2.Params "id" = idParam w.nextID →
      (MemWorld.GetContent (idParam w.nextID) Content.zero
        { (memHandler.CreateContent c (Run.start w)).2.state with mongoDown := down }).1 =
          none ∧
      (memHandler.GetContent c2 (Run.start
        { (memHandler.CreateContent c (Run.start w)).2.state with mongoDown := down })).1 =
          ⟨404, .error "Content body not found"⟩ ∧
      (memHandler.GetContent c2 (Run.start
        { (memHandler.CreateContent c (Run.start w)).2.state with mongoDown := down })).2.calls =
          [Call.pgGetContent (idParam w.nextID), Call.mongoGetContentBody ⟨w.nextID⟩] := by
  have hrow := find_row_fresh w.rows w.nextID hfresh.1
  have hdoc := find_doc_fresh w.docs w.nextID hfresh.2
  have hatoi := Atoi_idParam w.nextID hrange
  refine ⟨?_, ?_, ?_, ?_⟩
  · simp [ContentHandler.CreateContent, ContentHandler.pgCreateContent,
      ContentHandler.mongoInsertContentBody, memHandler, NewContentHandler,
      MemWorld.CreateContent, MemWorld.InsertContentBody, Run.start, hpg, hmongo, hlocal,
      hbody, StatusInternalServerError]
  · simp [ContentHandler.CreateContent, ContentHandler.pgCreateContent,
      ContentHandler.mongoInsertContentBody, memHandler, NewContentHandler,
      MemWorld.CreateContent, MemWorld.InsertContentBody, Run.start, hpg, hmongo, hlocal,
      hbody, Content.zero]
  · simp [ContentHandler.CreateContent, ContentHandler.pgCreateContent,
      ContentHandler.mongoInsertContentBody, memHandler, NewContentHandler,
      MemWorld.CreateContent, MemWorld.InsertContentBody, Run.start, hpg, hmongo, hlocal,
      hbody, Content.zero]
  · intro down c2 hid
    cases down <;>
      simp [ContentHandler.CreateContent, ContentHandler.GetContent,
        ContentHandler.pgCreateContent, ContentHandler.pgGetContent,
        ContentHandler.mongoInsertContentBody, ContentHandler.mongoGetContentBody,
        memHandler, NewContentHandler, MemWorld.CreateContent, MemWorld.InsertContentBody,
        MemWorld.GetContent, MemWorld.GetContentBody, MemWorld.live,
        Run.start, hpg, hmongo, hlocal, hbody, hid, hatoi, hrow, hdoc,
        List.filter_append, List.find?_append, StatusNotFound, Content.zero]

/-- Witness for C7: Create("Hello", "World", owner 1) on empty stores whose
document store is down. -/
theorem C7_create_partial_failure_witness :
    (memHandler.CreateContent (authorisedRequest "" 1 ⟨"Hello", "World"⟩)
      (Run.start { MemWorld.empty with mongoDown := true })).1 =
      ⟨500, .error "Failed to create content body in MongoDB"⟩ ∧
    (memHandler.GetContent (requestWithId "1" (.error "no body")) (Run.start
      { (memHandler.CreateContent (authorisedRequest "" 1 ⟨"Hello", "World"⟩)
          (Run.start { MemWorld.empty with mongoDown := true })).2.state with
        mongoDown := false })).1 = ⟨404, .error "Content body not found"⟩ := by
  have key := C7_create_partial_failure { MemWorld.empty with mongoDown := true }
    (authorisedRequest "" 1 ⟨"Hello", "World"⟩) "Hello" "World" (Float64.ofInt 1)
    (by rfl) (by rfl) (by simp [MemWorld.Fresh, MemWorld.empty]) (by decide) (by rfl) (by rfl)
  exact ⟨key.1, (key.2.2.2 false (requestWithId "1" (.error "no body")) (by rfl)).2.1⟩

/-! ## Two List calls within the TTL (C3) -/

theorem bracket_ne_quote (x y : String) : "[" ++ x ≠ "\"" ++ y := by
  intro h
  have hdata := congrArg String.data h
  simp at hdata

theorem MemWorld.Get_state (key : String) (w : MemWorld) : (MemWorld.Get key w).2 = w := by
  unfold MemWorld.Get
  split
  · rfl
  · split <;> rfl

/-- C3 fails on the code: over the in-memory stores (relational store and
cache up), when the first ListContents call misses the cache and the second
call comes less than the TTL later with nothing in between, the second call is
answered from the cache alone, and the two response bodies differ: the first
is the JSON array of the rows, the second the JSON string of the text
`fmt.Sprintf("%v", rows)` that the first call stored. -/
theorem C3_second_list_body_differs (fmt : Fmt) (json : JSON) (w : MemWorld) (c : Ctx)
    (d : Duration)
    (hpg : w.pgDown = false) (hcache : w.cacheDown = false)
    (hmiss : (MemWorld.Get "contents_list" w).1.2 ≠ none)
    (hd : d < 10 * Second) :
    (memHandler.ListContents fmt c (Run.start w)).1 = ⟨200, .contents (some w.live)⟩ ∧
    (memHandler.ListContents fmt c (Run.start
        ((memHandler.ListContents fmt c (Run.start w)).2.state.advance d))).1 =
      ⟨200, .text (fmt.Sprintf (some w.live))⟩ ∧
    (memHandler.ListContents fmt c (Run.start
        ((memHandler.ListContents fmt c (Run.start w)).2.state.advance d))).2.calls =
      [Call.cacheGet "contents_list"] ∧
    json.render (memHandler.ListContents fmt c (Run.start w)).1.body ≠
      json.render (memHandler.ListContents fmt c (Run.start
        ((memHandler.ListContents fmt c (Run.start w)).2.state.advance d))).1.body := by
  have hfirst : memHandler.ListContents fmt c (Run.start w) =
      (⟨200, .contents (some w.live)⟩,
        ⟨{ w with cache :=
            { key := "contents_list", value := fmt.Sprintf (some w.live),
              expiresAt := w.now + 10 * Second } ::
              w.cache.filter (fun e => e.key ≠ "contents_list") },
         [Call.cacheGet "contents_list", Call.pgFindContents,
          Call.cacheSet "contents_list" (fmt.Sprintf (some w.live)) (10 * Second)]⟩) := by
    rcases hget : MemWorld.Get "contents_list" w with ⟨⟨cached, err⟩, w1⟩
    have hw1 : w1 = w := by
      rw [← MemWorld.Get_state "contents_list" w, hget]
    subst hw1
    rw [hget] at hmiss
    have herr : ¬ (err = none ∧ cached ≠ "") := fun h => hmiss h.1
    simp [ContentHandler.ListContents, ContentHandler.cacheGet,
      ContentHandler.pgFindContents, ContentHandler.cacheSet, memHandler, NewContentHandler,
      MemWorld.FindContents, MemWorld.Set, Run.start, hget, herr, hpg, hcache, StatusOK]
  have hvalue : fmt.Sprintf (some w.live) ≠ "" := by
    intro h
    have hdata := congrArg String.data h
    simp [Fmt.Sprintf] at hdata
  have hsecond : memHandler.ListContents fmt c (Run.start
      ((memHandler.ListContents fmt c (Run.start w)).2.state.advance d)) =
      (⟨200, .text (fmt.Sprintf (some w.live))⟩,
        ⟨(memHandler.ListContents fmt c (Run.start w)).2.state.advance d,
         [Call.cacheGet "contents_list"]⟩) := by
    rw [hfirst]
    have hlive : w.now + d < w.now + 10 * Second := Nat.add_lt_add_left hd w.now
    simp [ContentHandler.ListContents, ContentHandler.cacheGet, memHandler,
      NewContentHandler, MemWorld.Get, MemWorld.advance, Run.start, hcache, hlive, hvalue,
      StatusOK]
  refine ⟨by rw [hfirst], by rw [hsecond], by rw [hsecond], ?_⟩
  rw [hsecond, hfirst]
  exact bracket_ne_quote _ _

/-- Witness for C3: on the empty stores the first body is `[]` and the second,
one second later, is the JSON string of `[]`. -/
theorem C3_second_list_body_differs_witness :
    jsonPlain.render (memHandler.ListContents fmtTitles
        (Ctx.request [] [] (.error "no body")) (Run.start MemWorld.empty)).1.body = "[]" ∧
    jsonPlain.render (memHandler.ListContents fmtTitles
        (Ctx.request [] [] (.error "no body")) (Run.start
          ((memHandler.ListContents fmtTitles (Ctx.request [] [] (.error "no body"))
            (Run.start MemWorld.empty)).2.state.advance Second))).1.body = "\"[]\"" ∧
    jsonPlain.render (memHandler.ListContents fmtTitles
        (Ctx.request [] [] (.error "no body")) (Run.start MemWorld.empty)).1.body ≠
      jsonPlain.render (memHandler.ListContents fmtTitles
        (Ctx.request [] [] (.error "no body")) (Run.start
          ((memHandler.ListContents fmtTitles (Ctx.request [] [] (.error "no body"))
            (Run.start MemWorld.empty)).2.state.advance Second))).1.body :=
  ⟨by rfl, by rfl,
    (C3_second_list_body_differs fmtTitles jsonPlain MemWorld.empty
      (Ctx.request [] [] (.error "no body")) Second (by rfl) (by rfl) (by decide)
      (by decide)).2.2.2⟩

/-! ## A missing relational record (C12) -/

/-- C12: in each of GetContent, UpdateContent and DeleteContent, when the
relational lookup by id returns an error, the handler answers 404
"Content not found" and the lookup is its only store call: nothing is read
from or written to the document store, the cache or the relational store
afterwards, whatever the document store holds. -/
theorem C12_missing_record {σ : Type} (h : ContentHandler σ) (c : Ctx) (s : σ)
    (hmissing : (h.PG.GetContent (c.Params "id") Content.zero s).1 ≠ none) :
    (h.GetContent c (Run.start s)).1 = ⟨404, .error "Content not found"⟩ ∧
    (h.GetContent c (Run.start s)).2.calls = [Call.pgGetContent (c.Params "id")] ∧
    (h.UpdateContent c (Run.start s)).1 = ⟨404, .error "Content not found"⟩ ∧
    (h.UpdateContent c (Run.start s)).2.calls = [Call.pgGetContent (c.Params "id")] ∧
    (h.DeleteContent c (Run.start s)).1 = ⟨404, .error "Content not found"⟩ ∧
    (h.DeleteContent c (Run.start s)).2.calls = [Call.pgGetContent (c.Params "id")] := by
  rcases hget : h.PG.GetContent (c.Params "id") Content.zero s with ⟨eg, cg, sg⟩
  rw [hget] at hmissing
  cases eg with
  | none => exact absurd rfl hmissing
  | some _ =>
    simp [ContentHandler.GetContent, ContentHandler.UpdateContent,
      ContentHandler.DeleteContent, ContentHandler.pgGetContent, Run.start, hget,
      StatusNotFound]

/-- Witness for C12: in-memory stores with no row and an orphaned body for
content id 1; the three handlers are asked for id "1". -/
theorem C12_missing_record_witness :
    (MemWorld.GetContentBody ⟨1⟩ ContentBody.zero
        { MemWorld.empty with docs := [⟨1, "orphan"⟩] }).1 = none ∧
    (memHandler.GetContent (requestWithId "1" (.ok ⟨"t", "d"⟩))
        (Run.start { MemWorld.empty with docs := [⟨1, "orphan"⟩] })).1 =
      ⟨404, .error "Content not found"⟩ ∧
    (memHandler.UpdateContent (requestWithId "1" (.ok ⟨"t", "d"⟩))
        (Run.start { MemWorld.empty with docs := [⟨1, "orphan"⟩] })).2.calls =
      [Call.pgGetContent "1"] ∧
    (memHandler.DeleteContent (requestWithId "1" (.ok ⟨"t", "d"⟩))
        (Run.start { MemWorld.empty with docs := [⟨1, "orphan"⟩] })).2.calls =
      [Call.pgGetContent "1"] := by
  have key := C12_missing_record memHandler (requestWithId "1" (.ok ⟨"t", "d"⟩))
    { MemWorld.empty with docs := [⟨1, "orphan"⟩] } (by decide)
  exact ⟨by rfl, key.1, key.2.2.2.1, key.2.2.2.2.2⟩

/-! ## The 400 of DeleteContent (C16) -/

/-- C16: whenever DeleteContent answers 400, the relational lookup and the
relational delete have both been called and have both succeeded before: the
call log is the lookup followed by the delete of the record found, and the
store is left in the state after that delete. -/
theorem C16_delete_400_after_relational_delete {σ : Type} (h : ContentHandler σ) (c : Ctx)
    (s : σ) (h400 : (h.DeleteContent c (Run.start s)).1.status = 400) :
    ∃ (found deleted : Content) (s1 s2 : σ),
      h.PG.GetContent (c.Params "id") Content.zero s = (none, found, s1) ∧
      h.PG.DeleteContent found s1 = (none, deleted, s2) ∧
      (h.DeleteContent c (Run.start s)).1 = ⟨400, .error "Invalid content ID"⟩ ∧
      (h.DeleteContent c (Run.start s)).2.calls =
        [Call.pgGetContent (c.Params "id"), Call.pgDeleteContent found] ∧
      (h.DeleteContent c (Run.start s)).2.state = s2 := by
  rcases hget : h.PG.GetContent (c.Params "id") Content.zero s with ⟨eg, cg, sg⟩
  cases eg with
  | some _ =>
    simp [ContentHandler.DeleteContent, ContentHandler.pgGetContent, Run.start, hget,
      StatusNotFound] at h400
  | none =>
    rcases hdel : h.PG.DeleteContent cg sg with ⟨ed, cd, sd⟩
    cases ed with
    | some _ =>
      simp [ContentHandler.DeleteContent, ContentHandler.pgGetContent,
        ContentHandler.pgDeleteContent, Run.start, hget, hdel,
        StatusInternalServerError] at h400
    | none =>
      cases hid : Atoi (c.Params "id") with
      | ok n =>
        simp [ContentHandler.DeleteContent, ContentHandler.pgGetContent,
          ContentHandler.pgDeleteContent, ContentHandler.mongoDeleteContentBody,
          Run.start, hget, hdel, hid, StatusOK] at h400
      | error _ =>
        refine ⟨cg, cd, sg, sd, rfl, hdel, ?_, ?_, ?_⟩ <;>
          simp [ContentHandler.DeleteContent, ContentHandler.pgGetContent,
            ContentHandler.pgDeleteContent, Run.start, hget, hdel, hid, StatusBadRequest]

/-- Witness for C16: the all-nil mocks answer 400 to DeleteContent on id "abc". -/
theorem C16_delete_400_after_relational_delete_witness :
    ((mockHandler {}).DeleteContent (requestWithId "abc" (.error "no body"))
        (Run.start ())).1.status = 400 ∧
    ∃ (found deleted : Content) (s1 s2 : Unit),
      (mockHandler {}).PG.GetContent
          ((requestWithId "abc" (.error "no body")).Params "id") Content.zero () =
        (none, found, s1) ∧
      (mockHandler {}).PG.DeleteContent found s1 = (none, deleted, s2) ∧
      ((mockHandler {}).DeleteContent (requestWithId "abc" (.error "no body"))
          (Run.start ())).1 = ⟨400, .error "Invalid content ID"⟩ ∧
      ((mockHandler {}).DeleteContent (requestWithId "abc" (.error "no body"))
          (Run.start ())).2.calls =
        [Call.pgGetContent ((requestWithId "abc" (.error "no body")).Params "id"),
         Call.pgDeleteContent found] ∧
      ((mockHandler {}).DeleteContent (requestWithId "abc" (.error "no body"))
          (Run.start ())).2.state = s2 :=
  ⟨by rfl, C16_delete_400_after_relational_delete (mockHandler {})
    (requestWithId "abc" (.error "no body")) () (by rfl)⟩

/-! ## Delete twice (C11) -/

theorem find_live_row (rows : List Content) (k : Nat)
    (hexists : ∃ row ∈ rows, row.DeletedAt = none ∧ row.ID = k) :
    ∃ found, rows.find? (fun row => decide (row.DeletedAt = none) && decide (row.ID = k)) =
      some found ∧ found.ID = k := by
  obtain ⟨row, hmem, hlive, hid⟩ := hexists
  cases hfind : rows.find? (fun row => decide (row.DeletedAt = none) && decide (row.ID = k)) with
  | none =>
    rw [List.find?_eq_none] at hfind
    exact absurd (by simp [hlive, hid]) (hfind row hmem)
  | some found =>
    have hp := List.find?_some hfind
    simp only [Bool.and_eq_true, decide_eq_true_eq] at hp
    exact ⟨found, rfl, hp.2⟩

theorem find_deleted_row (rows : List Content) (k : Nat) (t : Time) :
    (rows.map (fun r =>
        if r.ID = k ∧ r.DeletedAt = none then { r with DeletedAt := some t } else r)).find?
      (fun row => decide (row.DeletedAt = none) && decide (row.ID = k)) = none := by
  rw [List.find?_eq_none]
  intro row hrow
  obtain ⟨r, _, hr⟩ := List.mem_map.mp hrow
  by_cases hc : r.ID = k ∧ r.DeletedAt = none
  · rw [if_pos hc] at hr
    subst hr
    simp
  · rw [if_neg hc] at hr
    subst hr
    simp only [Bool.and_eq_true, decide_eq_true_eq, not_and]
    intro hlive hid
    exact hc ⟨hid, hlive⟩

/-- C11: over the in-memory stores with the relational store up, for every
live row id `k` (within `int`), DeleteContent on the decimal string of `k`
answers 200 "Content deleted successfully", and DeleteContent on the same id
in the state the first call left answers 404 "Content not found". -/
theorem C11_delete_twice (w : MemWorld) (c : Ctx) (k : Nat)
    (hpg : w.pgDown = false) (hk : k < 2 ^ 63)
    (hparam : c.Params "id" = idParam k)
    (hexists : ∃ row ∈ w.rows, row.DeletedAt = none ∧ row.ID = k) :
    (memHandler.DeleteContent c (Run.start w)).1 =
      ⟨200, .message "Content deleted successfully"⟩ ∧
    (memHandler.DeleteContent c
        (Run.start (memHandler.DeleteContent c (Run.start w)).2.state)).1 =
      ⟨404, .error "Content not found"⟩ := by
  obtain ⟨found, hfind, hfound⟩ := find_live_row w.rows k hexists
  have hgone := find_deleted_row w.rows k w.now
  have hatoi := Atoi_idParam k hk
  constructor
  · simp [ContentHandler.DeleteContent, ContentHandler.pgGetContent,
      ContentHandler.pgDeleteContent, ContentHandler.mongoDeleteContentBody,
      memHandler, NewContentHandler, MemWorld.GetContent, MemWorld.DeleteContent,
      MemWorld.live, Run.start, hpg, hparam, hatoi, hfind, StatusOK]
  · cases hm : w.mongoDown <;>
      simp [ContentHandler.DeleteContent, ContentHandler.pgGetContent,
        ContentHandler.pgDeleteContent, ContentHandler.mongoDeleteContentBody,
        memHandler, NewContentHandler, MemWorld.GetContent, MemWorld.DeleteContent,
        MemWorld.DeleteContentBody, MemWorld.live, Run.start, hpg, hm, hparam, hatoi,
        hfind, hfound, hgone, StatusNotFound]

/-- Witness for C11: one live row with id 1, deleted twice. -/
theorem C11_delete_twice_witness :
    (memHandler.DeleteContent (requestWithId "1" (.error "no body"))
      (Run.start { MemWorld.empty with
        rows := [{ Content.zero with ID := 1, Title := "Hello" }], nextID := 2 })).1 =
      ⟨200, .message "Content deleted successfully"⟩ ∧
    (memHandler.DeleteContent (requestWithId "1" (.error "no body"))
      (Run.start (memHandler.DeleteContent (requestWithId "1" (.error "no body"))
        (Run.start { MemWorld.empty with
          rows := [{ Content.zero with ID := 1, Title := "Hello" }], nextID := 2 })).2.state)).1 =
      ⟨404, .error "Content not found"⟩ :=
  C11_delete_twice
    { MemWorld.empty with rows := [{ Content.zero with ID := 1, Title := "Hello" }], nextID := 2 }
    (requestWithId "1" (.error "no body")) 1 (by rfl) (by decide) (by rfl)
    ⟨{ Content.zero with ID := 1, Title := "Hello" }, by simp [MemWorld.empty], by rfl, by rfl⟩

/-! ## Store error values do not reach the caller (C14) -/

theorem agreeButError_cases {α : Type} (a b : GoError × α) (hab : agreeButError a b) :
    (∃ e e1 x, a = (some e, x) ∧ b = (some e1, x)) ∨ (∃ x, a = (none, x) ∧ b = (none, x)) := by
  obtain ⟨ea, xa⟩ := a
  obtain ⟨eb, xb⟩ := b
  obtain ⟨h1, h2⟩ := hab
  simp only at h1 h2
  subst h2
  cases ea <;> cases eb <;> simp at h1
  · exact Or.inr ⟨xa, rfl, rfl⟩
  · exact Or.inl ⟨_, _, xa, rfl, rfl⟩

theorem CreateContent_sameButErrorValues {σ : Type} (h h1 : ContentHandler σ)
    (hsame : SameButErrorValues h h1) (c : Ctx) (r : Run σ) :
    h.CreateContent c r = h1.CreateContent c r := by
  obtain ⟨hcreate, -, -, -, -, hinsert, -⟩ := hsame
  unfold ContentHandler.CreateContent
  cases hl : c.Locals "userId" with
  | none => rfl
  | some l =>
    cases l with
    | str _ => rfl
    | float64 userID =>
      cases hb : c.BodyParser with
      | error _ => rfl
      | ok req =>
        rcases agreeButError_cases _ _ (hcreate { Content.zero with
            Title := req.Title, Description := req.Description, UserID := userID.toInt }
            r.state) with ⟨e, e1, x, ha, hb1⟩ | ⟨x, ha, hb1⟩
        · simp [ContentHandler.pgCreateContent, ha, hb1]
        · rcases agreeButError_cases _ _
            (hinsert { ContentID := x.1.ID, Body := req.Description } x.2) with
            ⟨e, e1, y, hc, hd⟩ | ⟨y, hc, hd⟩ <;>
          simp [ContentHandler.pgCreateContent, ContentHandler.mongoInsertContentBody,
            ha, hb1, hc, hd]

theorem ListContents_sameButErrorValues {σ : Type} (fmt : Fmt) (h h1 : ContentHandler σ)
    (hsame : SameButErrorValues h h1) (c : Ctx) (r : Run σ) :
    h.ListContents fmt c r = h1.ListContents fmt c r := by
  obtain ⟨-, hfind, -, -, -, -, -, -, -, hget, hset⟩ := hsame
  unfold ContentHandler.ListContents
  rcases hga : h.Cache.Get "contents_list" r.state with ⟨⟨v, e⟩, s1⟩
  rcases hgb : h1.Cache.Get "contents_list" r.state with ⟨⟨v1, e1⟩, s2⟩
  have hg := hget "contents_list" r.state
  rw [hga, hgb] at hg
  obtain ⟨hv, he, hs⟩ := hg
  simp only at hv he hs
  subst hv hs
  have hnone : (e = none) = (e1 = none) := by
    cases e <;> cases e1 <;> simp at he <;> simp
  by_cases hhit : e = none ∧ v ≠ ""
  · have hhit1 : e1 = none ∧ v ≠ "" := ⟨by rw [← hnone]; exact hhit.1, hhit.2⟩
    simp [ContentHandler.cacheGet, hga, hgb, hhit, hhit1]
  · have hhit1 : ¬ (e1 = none ∧ v ≠ "") := fun hx => hhit ⟨by rw [hnone]; exact hx.1, hx.2⟩
    rcases agreeButError_cases _ _ (hfind none s1) with ⟨ef, ef1, x, ha, hb1⟩ | ⟨x, ha, hb1⟩
    · simp [ContentHandler.cacheGet, ContentHandler.pgFindContents, hga, hgb, hhit, hhit1,
        ha, hb1]
    · have hst := (hset "contents_list" (fmt.Sprintf x.1) (10 * Second) x.2).2
      simp [ContentHandler.cacheGet, ContentHandler.pgFindContents, ContentHandler.cacheSet,
        hga, hgb, hhit, hhit1, ha, hb1, hst]

theorem GetContent_sameButErrorValues {σ : Type} (h h1 : ContentHandler σ)
    (hsame : SameButErrorValues h h1) (c : Ctx) (r : Run σ) :
    h.GetContent c r = h1.GetContent c r := by
  obtain ⟨-, -, hget, -, -, -, hbody, -⟩ := hsame
  unfold ContentHandler.GetContent
  rcases agreeButError_cases _ _ (hget (c.Params "id") Content.zero r.state) with
    ⟨e, e1, x, ha, hb1⟩ | ⟨x, ha, hb1⟩
  · simp [ContentHandler.pgGetContent, ha, hb1]
  · cases hid : Atoi (c.Params "id") with
    | error _ => simp [ContentHandler.pgGetContent, ha, hb1, hid]
    | ok n =>
      rcases agreeButError_cases _ _ (hbody { content_id := n } ContentBody.zero x.2) with
        ⟨e, e1, y, hc, hd⟩ | ⟨y, hc, hd⟩ <;>
      simp [ContentHandler.pgGetContent, ContentHandler.mongoGetContentBody,
        ha, hb1, hid, hc, hd]

theorem UpdateContent_sameButErrorValues {σ : Type} (h h1 : ContentHandler σ)
    (hsame : SameButErrorValues h h1) (c : Ctx) (r : Run σ) :
    h.UpdateContent c r = h1.UpdateContent c r := by
  obtain ⟨-, -, hget, hsave, -, -, -, hupdate, -⟩ := hsame
  unfold ContentHandler.UpdateContent
  rcases agreeButError_cases _ _ (hget (c.Params "id") Content.zero r.state) with
    ⟨e, e1, x, ha, hb1⟩ | ⟨x, ha, hb1⟩
  · simp [ContentHandler.pgGetContent, ha, hb1]
  · cases hb : c.BodyParser with
    | error _ => simp [ContentHandler.pgGetContent, ha, hb1]
    | ok req =>
      rcases agreeButError_cases _ _
        (hsave { x.1 with Title := req.Title, Description := req.Description } x.2) with
        ⟨e, e1, y, hc, hd⟩ | ⟨y, hc, hd⟩
      · simp [ContentHandler.pgGetContent, ContentHandler.pgSaveContent, ha, hb1, hc, hd]
      · cases hid : Atoi (c.Params "id") with
        | error _ =>
          simp [ContentHandler.pgGetContent, ContentHandler.pgSaveContent, ha, hb1, hc, hd,
            hid]
        | ok n =>
          rcases agreeButError_cases _ _
            (hupdate { content_id := n } { body := req.Description, title := req.Title }
              y.2) with ⟨e, e1, z, hu, hv⟩ | ⟨z, hu, hv⟩ <;>
          simp [ContentHandler.pgGetContent, ContentHandler.pgSaveContent,
            ContentHandler.mongoUpdateContentBody, ha, hb1, hc, hd, hid, hu, hv]

theorem DeleteContent_sameButErrorValues {σ : Type} (h h1 : ContentHandler σ)
    (hsame : SameButErrorValues h h1) (c : Ctx) (r : Run σ) :
    h.DeleteContent c r = h1.DeleteContent c r := by
  obtain ⟨-, -, hget, -, hdelete, -, -, -, hremove, -⟩ := hsame
  unfold ContentHandler.DeleteContent
  rcases agreeButError_cases _ _ (hget (c.Params "id") Content.zero r.state) with
    ⟨e, e1, x, ha, hb1⟩ | ⟨x, ha, hb1⟩
  · simp [ContentHandler.pgGetContent, ha, hb1]
  · rcases agreeButError_cases _ _ (hdelete x.1 x.2) with ⟨e, e1, y, hc, hd⟩ | ⟨y, hc, hd⟩
    · simp [ContentHandler.pgGetContent, ContentHandler.pgDeleteContent, ha, hb1, hc, hd]
    · cases hid : Atoi (c.Params "id") with
      | error _ =>
        simp [ContentHandler.pgGetContent, ContentHandler.pgDeleteContent, ha, hb1, hc, hd,
          hid]
      | ok n =>
        have hst := (hremove { content_id := n } y.2).2
        simp [ContentHandler.pgGetContent, ContentHandler.pgDeleteContent,
          ContentHandler.mongoDeleteContentBody, ha, hb1, hc, hd, hid, hst]

/-- C14: for each of the five content handlers, two runs from the same state
on the same request whose stores succeed or fail together and differ only in
the error values they return give the same response (status code and body):
no store error text reaches the caller. -/
theorem C14_error_values_do_not_leak {σ : Type} (fmt : Fmt) (h h1 : ContentHandler σ)
    (c : Ctx) (s : σ) (hsame : SameButErrorValues h h1) :
    (h.CreateContent c (Run.start s)).1 = (h1.CreateContent c (Run.start s)).1 ∧
    (h.ListContents fmt c (Run.start s)).1 = (h1.ListContents fmt c (Run.start s)).1 ∧
    (h.GetContent c (Run.start s)).1 = (h1.GetContent c (Run.start s)).1 ∧
    (h.UpdateContent c (Run.start s)).1 = (h1.UpdateContent c (Run.start s)).1 ∧
    (h.DeleteContent c (Run.start s)).1 = (h1.DeleteContent c (Run.start s)).1 := by
  refine ⟨?_, ?_, ?_, ?_, ?_⟩
  · rw [CreateContent_sameButErrorValues h h1 hsame]
  · rw [ListContents_sameButErrorValues fmt h h1 hsame]
  · rw [GetContent_sameButErrorValues h h1 hsame]
  · rw [UpdateContent_sameButErrorValues h h1 hsame]
  · rw [DeleteContent_sameButErrorValues h h1 hsame]

/-- Witness for C14: two sets of mocks whose relational store fails on every
call with two different error texts. -/
theorem C14_error_values_do_not_leak_witness :
    SameButErrorValues
      (mockHandler { pgCreate := some "pq: password authentication failed",
                     pgFind := some "pq: password authentication failed",
                     pgGet := some "pq: password authentication failed" })
      (mockHandler { pgCreate := some "dial tcp 10.0.0.7:5432: i/o timeout",
                     pgFind := some "dial tcp 10.0.0.7:5432: i/o timeout",
                     pgGet := some "dial tcp 10.0.0.7:5432: i/o timeout" }) ∧
    ((mockHandler { pgCreate := some "pq: password authentication failed",
                    pgFind := some "pq: password authentication failed",
                    pgGet := some "pq: password authentication failed" }).CreateContent
        (authorisedRequest "1" 1 ⟨"Hello", "World"⟩) (Run.start ())).1 =
      ((mockHandler { pgCreate := some "dial tcp 10.0.0.7:5432: i/o timeout",
                      pgFind := some "dial tcp 10.0.0.7:5432: i/o timeout",
                      pgGet := some "dial tcp 10.0.0.7:5432: i/o timeout" }).CreateContent
        (authorisedRequest "1" 1 ⟨"Hello", "World"⟩) (Run.start ())).1 ∧
    ((mockHandler { pgCreate := some "pq: password authentication failed",
                    pgFind := some "pq: password authentication failed",
                    pgGet := some "pq: password authentication failed" }).GetContent
        (authorisedRequest "1" 1 ⟨"Hello", "World"⟩) (Run.start ())).1 =
      ((mockHandler { pgCreate := some "dial tcp 10.0.0.7:5432: i/o timeout",
                      pgFind := some "dial tcp 10.0.0.7:5432: i/o timeout",
                      pgGet := some "dial tcp 10.0.0.7:5432: i/o timeout" }).GetContent
        (authorisedRequest "1" 1 ⟨"Hello", "World"⟩) (Run.start ())).1 := by
  have hsame : SameButErrorValues
      (mockHandler { pgCreate := some "pq: password authentication failed",
                     pgFind := some "pq: password authentication failed",
                     pgGet := some "pq: password authentication failed" })
      (mockHandler { pgCreate := some "dial tcp 10.0.0.7:5432: i/o timeout",
                     pgFind := some "dial tcp 10.0.0.7:5432: i/o timeout",
                     pgGet := some "dial tcp 10.0.0.7:5432: i/o timeout" }) := by
    simp [SameButErrorValues, agreeButError, agreeButErrorGet, mockHandler, NewContentHandler,
      MockPGRepository, MockMongoRepository, MockCacheRepository]
  have key := C14_error_values_do_not_leak fmtTitles _ _
    (authorisedRequest "1" 1 ⟨"Hello", "World"⟩) () hsame
  exact ⟨hsame, key.1, key.2.2.1⟩

/-! ## The cache is not touched by Create, Update and Delete (C13) -/

theorem CreateContent_no_cache_call {σ : Type} (h : ContentHandler σ) (c : Ctx) (s : σ) :
    ∀ call ∈ (h.CreateContent c (Run.start s)).2.calls, call.isCache = false := by
  unfold ContentHandler.CreateContent
  cases hl : c.Locals "userId" with
  | none => simp [Run.start]
  | some l =>
    cases l with
    | str _ => simp [Run.start]
    | float64 userID =>
      cases hb : c.BodyParser with
      | error _ => simp [Run.start]
      | ok req =>
        rcases hcreate : h.PG.CreateContent { Content.zero with
          Title := req.Title, Description := req.Description, UserID := userID.toInt } s with
          ⟨ec, cc, sc⟩
        cases ec with
        | some _ =>
          simp [ContentHandler.pgCreateContent, Run.start, hcreate, Call.isCache]
        | none =>
          rcases hins : h.Mongo.InsertContentBody
            { ContentID := cc.ID, Body := req.Description } sc with ⟨ei, bi, si⟩
          cases ei <;>
            simp [ContentHandler.pgCreateContent, ContentHandler.mongoInsertContentBody,
              Run.start, hcreate, hins, Call.isCache]

theorem UpdateContent_no_cache_call {σ : Type} (h : ContentHandler σ) (c : Ctx) (s : σ) :
    ∀ call ∈ (h.UpdateContent c (Run.start s)).2.calls, call.isCache = false := by
  unfold ContentHandler.UpdateContent
  rcases hget : h.PG.GetContent (c.Params "id") Content.zero s with ⟨eg, cg, sg⟩
  cases eg with
  | some _ => simp [ContentHandler.pgGetContent, Run.start, hget, Call.isCache]
  | none =>
    cases hb : c.BodyParser with
    | error _ => simp [ContentHandler.pgGetContent, Run.start, hget, Call.isCache]
    | ok req =>
      rcases hsave : h.PG.SaveContent
        { cg with Title := req.Title, Description := req.Description } sg with ⟨es, cs, ss⟩
      cases es with
      | some _ =>
        simp [ContentHandler.pgGetContent, ContentHandler.pgSaveContent, Run.start, hget,
          hsave, Call.isCache]
      | none =>
        cases hid : Atoi (c.Params "id") with
        | error _ =>
          simp [ContentHandler.pgGetContent, ContentHandler.pgSaveContent, Run.start, hget,
            hsave, hid, Call.isCache]
        | ok n =>
          rcases hupd : h.Mongo.UpdateContentBody { content_id := n }
            { body := req.Description, title := req.Title } ss with ⟨eu, su⟩
          cases eu <;>
            simp [ContentHandler.pgGetContent, ContentHandler.pgSaveContent,
              ContentHandler.mongoUpdateContentBody, Run.start, hget, hsave, hid, hupd,
              Call.isCache]

theorem DeleteContent_no_cache_call {σ : Type} (h : ContentHandler σ) (c : Ctx) (s : σ) :
    ∀ call ∈ (h.DeleteContent c (Run.start s)).2.calls, call.isCache = false := by
  unfold ContentHandler.DeleteContent
  rcases hget : h.PG.GetContent (c.Params "id") Content.zero s with ⟨eg, cg, sg⟩
  cases eg with
  | some _ => simp [ContentHandler.pgGetContent, Run.start, hget, Call.isCache]
  | none =>
    rcases hdel : h.PG.DeleteContent cg sg with ⟨ed, cd, sd⟩
    cases ed with
    | some _ =>
      simp [ContentHandler.pgGetContent, ContentHandler.pgDeleteContent, Run.start, hget,
        hdel, Call.isCache]
    | none =>
      cases hid : Atoi (c.Params "id") with
      | error _ =>
        simp [ContentHandler.pgGetContent, ContentHandler.pgDeleteContent, Run.start, hget,
          hdel, hid, Call.isCache]
      | ok n =>
        simp [ContentHandler.pgGetContent, ContentHandler.pgDeleteContent,
          ContentHandler.mongoDeleteContentBody, Run.start, hget, hdel, hid, Call.isCache]

theorem mem_CreateContent_eq (w : MemWorld) (c : Ctx) (title description : String)
    (owner : Float64) (hpg : w.pgDown = false) (hmongo : w.mongoDown = false)
    (hlocal : c.Locals "userId" = some (Local.float64 owner))
    (hbody : c.BodyParser = Except.ok ⟨title, description⟩) :
    memHandler.CreateContent c (Run.start w) =
      (⟨201, .content { Content.zero with
          ID := w.nextID, CreatedAt := w.now, UpdatedAt := w.now,
          Title := title, Description := description, UserID := owner.toInt }⟩,
        ⟨{ w with
            rows := w.rows ++ [{ Content.zero with
              ID := w.nextID, CreatedAt := w.now, UpdatedAt := w.now,
              Title := title, Description := description, UserID := owner.toInt }],
            nextID := w.nextID + 1,
            docs := w.docs ++ [⟨w.nextID, description⟩] },
         [Call.pgCreateContent { Content.zero with
            Title := title, Description := description, UserID := owner.toInt },
          Call.mongoInsertContentBody ⟨w.nextID, description⟩]⟩) := by
  simp [ContentHandler.CreateContent, ContentHandler.pgCreateContent,
    ContentHandler.mongoInsertContentBody, memHandler, NewContentHandler,
    MemWorld.CreateContent, MemWorld.InsertContentBody, Run.start, hpg, hmongo, hlocal,
    hbody, StatusCreated, Content.zero]

theorem mem_ListContents_miss (fmt : Fmt) (w : MemWorld) (c : Ctx)
    (hpg : w.pgDown = false) (hcache : w.cacheDown = false)
    (hmiss : ∀ e ∈ w.cache, e.key = "contents_list" → e.expiresAt ≤ w.now) :
    memHandler.ListContents fmt c (Run.start w) =
      (⟨200, .contents (some w.live)⟩,
        ⟨{ w with cache :=
            { key := "contents_list", value := fmt.Sprintf (some w.live),
              expiresAt := w.now + 10 * Second } ::
              w.cache.filter (fun e => e.key ≠ "contents_list") },
         [Call.cacheGet "contents_list", Call.pgFindContents,
          Call.cacheSet "contents_list" (fmt.Sprintf (some w.live)) (10 * Second)]⟩) := by
  have hfind : w.cache.find?
      (fun e => decide (e.key = "contents_list") && decide (w.now < e.expiresAt)) = none := by
    rw [List.find?_eq_none]
    intro e he
    simp only [Bool.and_eq_true, decide_eq_true_eq, not_and, Nat.not_lt]
    exact hmiss e he
  simp [ContentHandler.ListContents, ContentHandler.cacheGet,
    ContentHandler.pgFindContents, ContentHandler.cacheSet, memHandler, NewContentHandler,
    MemWorld.Get, MemWorld.FindContents, MemWorld.Set, Run.start, hfind, hpg, hcache,
    StatusOK]

theorem mem_ListContents_hit (fmt : Fmt) (w : MemWorld) (c : Ctx) (entry : CacheEntry)
    (rest : List CacheEntry)
    (hcache : w.cacheDown = false) (hentries : w.cache = entry :: rest)
    (hkey : entry.key = "contents_list") (hlive : w.now < entry.expiresAt)
    (hvalue : entry.value ≠ "") :
    memHandler.ListContents fmt c (Run.start w) =
      (⟨200, .text entry.value⟩, ⟨w, [Call.cacheGet "contents_list"]⟩) := by
  simp [ContentHandler.ListContents, ContentHandler.cacheGet, memHandler,
    NewContentHandler, MemWorld.Get, Run.start, hcache, hentries, hkey, hlive, hvalue,
    StatusOK]

theorem Sprintf_ne_empty (fmt : Fmt) (contents : ContentSlice) : fmt.Sprintf contents ≠ "" := by
  intro h
  have hdata := congrArg String.data h
  simp [Fmt.Sprintf] at hdata

theorem mem_UpdateContent_last_row (w : MemWorld) (c : Ctx) (rows0 : List Content)
    (created : Content) (req : ContentRequest)
    (hpg : w.pgDown = false) (hmongo : w.mongoDown = false)
    (hrows : w.rows = rows0 ++ [created]) (hfresh : ∀ row ∈ rows0, row.ID < created.ID)
    (hlive : created.DeletedAt = none) (hk : created.ID < 2 ^ 63)
    (hparam : c.Params "id" = idParam created.ID)
    (hbody : c.BodyParser = Except.ok req) :
    (memHandler.UpdateContent c (Run.start w)).1 =
      ⟨200, .content { created with
          Title := req.Title, Description := req.Description, UpdatedAt := w.now }⟩ ∧
    (memHandler.UpdateContent c (Run.start w)).2.state.cache = w.cache ∧
    (memHandler.UpdateContent c (Run.start w)).2.state.cacheDown = w.cacheDown ∧
    (memHandler.UpdateContent c (Run.start w)).2.state.now = w.now := by
  have hrow := find_row_fresh rows0 created.ID hfresh
  have hatoi := Atoi_idParam created.ID hk
  refine ⟨?_, ?_, ?_, ?_⟩ <;>
    simp [ContentHandler.UpdateContent, ContentHandler.pgGetContent,
      ContentHandler.pgSaveContent, ContentHandler.mongoUpdateContentBody, memHandler,
      NewContentHandler, MemWorld.GetContent, MemWorld.SaveContent,
      MemWorld.UpdateContentBody, MemWorld.live, Run.start, hpg, hmongo, hrows, hlive,
      hparam, hbody, hatoi, hrow, List.filter_append, List.find?_append, StatusOK]

/-- C13: CreateContent, UpdateContent and DeleteContent make no call on the
cache, whatever the stores; hence, over the in-memory stores (all up, ids
never reused, no live cache entry at the first List), after Create, List,
Update and a second List less than the TTL after the first, the first List
answers the rows with the created record, the Update answers 200 with the new
title and description, and the second List makes the cache read its only
store call and answers the text cached by the first List, which is the text
of the rows before the update. -/
theorem C13_cache_not_invalidated :
    (∀ (σ : Type) (h : ContentHandler σ) (c : Ctx) (s : σ),
      (∀ call ∈ (h.CreateContent c (Run.start s)).2.calls, call.isCache = false) ∧
      (∀ call ∈ (h.UpdateContent c (Run.start s)).2.calls, call.isCache = false) ∧
      (∀ call ∈ (h.DeleteContent c (Run.start s)).2.calls, call.isCache = false)) ∧
    (∀ (fmt : Fmt) (w : MemWorld) (cCreate cList cUpdate : Ctx) (d0 d1 d2 : Duration)
        (title description : String) (owner : Float64) (req : ContentRequest),
      w.pgDown = false → w.mongoDown = false → w.cacheDown = false →
      w.Fresh → w.nextID < 2 ^ 63 →
      (∀ e ∈ w.cache, e.key = "contents_list" → e.expiresAt ≤ w.now + d0) →
      cCreate.Locals "userId" = some (Local.float64 owner) →
      cCreate.BodyParser = Except.ok ⟨title, description⟩ →
      cUpdate.Params "id" = idParam w.nextID →
      cUpdate.BodyParser = Except.ok req →
      d1 + d2 < 10 * Second →
      (staleScenario fmt w cCreate cList cUpdate d0 d1 d2).create.1 =
        ⟨201, .content { Content.zero with
            ID := w.nextID, CreatedAt := w.now, UpdatedAt := w.now,
            Title := title, Description := description, UserID := owner.toInt }⟩ ∧
      (staleScenario fmt w cCreate cList cUpdate d0 d1 d2).list1.1 =
        ⟨200, .contents (some (w.live ++ [{ Content.zero with
            ID := w.nextID, CreatedAt := w.now, UpdatedAt := w.now,
            Title := title, Description := description, UserID := owner.toInt }]))⟩ ∧
      (staleScenario fmt w cCreate cList cUpdate d0 d1 d2).update.1 =
        ⟨200, .content { Content.zero with
            ID := w.nextID, CreatedAt := w.now, UpdatedAt := w.now + d0 + d1,
            Title := req.Title, Description := req.Description, UserID := owner.toInt }⟩ ∧
      (staleScenario fmt w cCreate cList cUpdate d0 d1 d2).list2.1 =
        ⟨200, .text (fmt.Sprintf (some (w.live ++ [{ Content.zero with
            ID := w.nextID, CreatedAt := w.now, UpdatedAt := w.now,
            Title := title, Description := description, UserID := owner.toInt }])))⟩ ∧
      (staleScenario fmt w cCreate cList cUpdate d0 d1 d2).list2.2.calls =
        [Call.cacheGet "contents_list"]) := by
  constructor
  · intro σ h c s
    exact ⟨CreateContent_no_cache_call h c s, UpdateContent_no_cache_call h c s,
      DeleteContent_no_cache_call h c s⟩
  · intro fmt w cCreate cList cUpdate d0 d1 d2 title description owner req
      hpg hmongo hcache hfresh hrange hmiss hlocal hbody hparam hreq httl
    have e1 := mem_CreateContent_eq w cCreate title description owner hpg hmongo hlocal hbody
    have e2 := mem_ListContents_miss fmt
      ((memHandler.CreateContent cCreate (Run.start w)).2.state.advance d0) cList
      (by rw [e1]; exact hpg) (by rw [e1]; exact hcache)
      (by rw [e1]; exact hmiss)
    have hlive1 : ((memHandler.CreateContent cCreate (Run.start w)).2.state.advance d0).live =
        w.live ++ [{ Content.zero with
          ID := w.nextID, CreatedAt := w.now, UpdatedAt := w.now,
          Title := title, Description := description, UserID := owner.toInt }] := by
      rw [e1]
      simp [MemWorld.live, MemWorld.advance, List.filter_append, Content.zero]
    have e3 := mem_UpdateContent_last_row
      ((memHandler.ListContents fmt cList (Run.start
        ((memHandler.CreateContent cCreate (Run.start w)).2.state.advance d0))).2.state.advance
          d1) cUpdate w.rows
      { Content.zero with
        ID := w.nextID, CreatedAt := w.now, UpdatedAt := w.now,
        Title := title, Description := description, UserID := owner.toInt } req
      (by rw [e2, e1]; exact hpg) (by rw [e2, e1]; exact hmongo)
      (by rw [e2, e1]; rfl) hfresh.1 rfl hrange hparam hreq
    have hnow3 : ((memHandler.ListContents fmt cList (Run.start
        ((memHandler.CreateContent cCreate (Run.start w)).2.state.advance d0))).2.state.advance
          d1).now = w.now + d0 + d1 := by
      rw [e2, e1]; rfl
    have hlt : w.now + d0 + d1 + d2 < w.now + d0 + 10 * Second := by
      have := Nat.add_lt_add_left httl (w.now + d0)
      simpa [Nat.add_assoc] using this
    have e4 := mem_ListContents_hit fmt
      ((memHandler.UpdateContent cUpdate (Run.start
        ((memHandler.ListContents fmt cList (Run.start
          ((memHandler.CreateContent cCreate (Run.start w)).2.state.advance d0))).2.state.advance
            d1))).2.state.advance d2) cList
      { key := "contents_list",
        value := fmt.Sprintf (some
          ((memHandler.CreateContent cCreate (Run.start w)).2.state.advance d0).live),
        expiresAt := w.now + d0 + 10 * Second }
      (List.filter (fun e => e.key ≠ "contents_list") w.cache)
      (by
        show (memHandler.UpdateContent cUpdate _).2.state.cacheDown = false
        rw [e3.2.2.1, e2, e1]; exact hcache)
      (by
        show (memHandler.UpdateContent cUpdate _).2.state.cache = _
        rw [e3.2.1, e2, e1]; rfl)
      rfl
      (by
        show (memHandler.UpdateContent cUpdate _).2.state.now + d2 < _
        rw [e3.2.2.2, hnow3]; exact hlt)
      (Sprintf_ne_empty fmt _)
    refine ⟨?_, ?_, ?_, ?_, ?_⟩
    · show (memHandler.CreateContent cCreate (Run.start w)).1 = _
      rw [e1]
    · show (memHandler.ListContents fmt cList _).1 = _
      rw [e2, hlive1]
    · show (memHandler.UpdateContent cUpdate _).1 = _
      rw [e3.1, hnow3]
    · show (memHandler.ListContents fmt cList _).1 = _
      rw [e4, hlive1]
    · show (memHandler.ListContents fmt cList _).2.calls = _
      rw [e4]

/-- Witness for C13: on the empty stores, Create("Hello", "World"), List,
Update to ("Hello2", "World2"), List, one second apart: the second List still
answers the cached text with the title "Hello". -/
theorem C13_cache_not_invalidated_witness :
    (staleScenario fmtTitles MemWorld.empty (authorisedRequest "" 1 ⟨"Hello", "World"⟩)
        (Ctx.request [] [] (.error "no body")) (requestWithId "1" (.ok ⟨"Hello2", "World2"⟩))
        Second Second Second).update.1 =
      ⟨200, .content { Content.zero with
          ID := 1, CreatedAt := 0, UpdatedAt := 2000000000,
          Title := "Hello2", Description := "World2", UserID := 1 }⟩ ∧
    (staleScenario fmtTitles MemWorld.empty (authorisedRequest "" 1 ⟨"Hello", "World"⟩)
        (Ctx.request [] [] (.error "no body")) (requestWithId "1" (.ok ⟨"Hello2", "World2"⟩))
        Second Second Second).list2.1 = ⟨200, .text "[Hello]"⟩ := by
  have key := C13_cache_not_invalidated.2 fmtTitles MemWorld.empty
    (authorisedRequest "" 1 ⟨"Hello", "World"⟩) (Ctx.request [] [] (.error "no body"))
    (requestWithId "1" (.ok ⟨"Hello2", "World2"⟩)) Second Second Second "Hello" "World"
    (Float64.ofInt 1) ⟨"Hello2", "World2"⟩ (by rfl) (by rfl) (by rfl)
    (by simp [MemWorld.Fresh, MemWorld.empty]) (by decide) (by simp [MemWorld.empty])
    (by rfl) (by rfl) (by rfl) (by rfl) (by decide)
  exact ⟨key.2.2.1, key.2.2.2.1⟩

/-! ## Login (C15) -/

/-- C15: when the request parses, the repository lookup returns a user that is
not banned and not locked out (fewer than five failed attempts, or no lockout
time, or a lockout time that is not after now), and the stored hash matches
the submitted password, LoginHandler calls the token service once, with the
decimal string of the user's ID and the user's username, and, if that call
returns no error, answers 200 "Login successful" and sets the `auth_token`
cookie to the token. -/
theorem C15_login_requests_token {σ : Type} (bcrypt : Bcrypt) (clock : Nat → Time)
    (h : Handler σ) (body : Except String LoginRequest) (s s1 : σ)
    (req : LoginRequest) (user : User)
    (hbody : body = Except.ok req)
    (hfound : h.UserRepo.FindByUsernameOrEmail req.Username req.Email User.zero s =
      (none, user, s1))
    (hbanned : user.IsBanned = false)
    (hunlocked : ¬ (user.FailedAttempts ≥ 5 ∧
      ∃ lockoutUntil, user.LockoutUntil = some lockoutUntil ∧ clock 0 < lockoutUntil))
    (hpassword : bcrypt.CompareHashAndPassword user.Password req.Password = none) :
    (h.LoginHandler bcrypt clock body (UserRun.start s)).2.calls =
      [UserCall.findByUsernameOrEmail req.Username req.Email,
       UserCall.createNewAuthToken (toString user.ID) user.Username] ∧
    ∀ (signedToken : String) (s2 : σ),
      h.TokenService.CreateNewAuthToken (toString user.ID) user.Username s1 =
        ((signedToken, none), s2) →
      (h.LoginHandler bcrypt clock body (UserRun.start s)).1.resp =
        ⟨200, .message "Login successful"⟩ ∧
      ∃ cookie, (h.LoginHandler bcrypt clock body (UserRun.start s)).1.cookie = some cookie ∧
        cookie.Name = "auth_token" ∧ cookie.Value = signedToken := by
  have hlock : Handler.lockedOut user (clock 0) = false := by
    unfold Handler.lockedOut
    cases hl : user.LockoutUntil with
    | none => simp
    | some t =>
      by_cases hfa : user.FailedAttempts ≥ 5
      · have : ¬ clock 0 < t := fun hlt => hunlocked ⟨hfa, t, hl, hlt⟩
        simp [this]
      · simp [hfa]
  subst hbody
  rcases htok : h.TokenService.CreateNewAuthToken (toString user.ID) user.Username s1 with
    ⟨⟨tok, et⟩, st⟩
  constructor
  · cases et <;>
      simp [Handler.LoginHandler, Handler.findByUsernameOrEmail, Handler.createNewAuthToken,
        UserRun.start, hfound, hbanned, hlock, hpassword, htok]
  · intro signedToken s2 hok
    cases hok
    simp [Handler.LoginHandler, Handler.findByUsernameOrEmail, Handler.createNewAuthToken,
      UserRun.start, hfound, hbanned, hlock, hpassword, htok, StatusOK]

/-- Witness for C15: the mocks and the request of `TestLoginHandler_WithMocks`. -/
theorem C15_login_requests_token_witness :
    ((Handler.mk (MockUserRepository (some fakeUser) none)
        (MockTokenService "faketoken" none)).LoginHandler bcryptMarker (fun _ => 0)
      (.ok ⟨"testuser", "test@example.com", "rightpassword"⟩) (UserRun.start ())).2.calls =
      [UserCall.findByUsernameOrEmail "testuser" "test@example.com",
       UserCall.createNewAuthToken "456" "testuser"] ∧
    ((Handler.mk (MockUserRepository (some fakeUser) none)
        (MockTokenService "faketoken" none)).LoginHandler bcryptMarker (fun _ => 0)
      (.ok ⟨"testuser", "test@example.com", "rightpassword"⟩) (UserRun.start ())).1.resp =
      ⟨200, .message "Login successful"⟩ := by
  have key := C15_login_requests_token bcryptMarker (fun _ => 0)
    (Handler.mk (MockUserRepository (some fakeUser) none) (MockTokenService "faketoken" none))
    (.ok ⟨"testuser", "test@example.com", "rightpassword"⟩) () ()
    ⟨"testuser", "test@example.com", "rightpassword"⟩ fakeUser (by rfl) (by rfl) (by rfl)
    (by decide) (by rfl)
  exact ⟨key.1, (key.2 "faketoken" () (by rfl)).1⟩

end CMS
